import Mathlib

/-!
Verification development for the grid-based gravity/collision engine of the
TigerHack25 repository.  The definitions below are a shallow embedding of
`src/engine.ts` (class `Engine`): the grid data model, footprint computation
(`getCellsInRadius`), occupancy management (`placeSprite`, `removeSprite`,
`moveSprite`), the per-tick motion/collision resolution of a moving sprite,
the `generateWorld` planet-placement step, and the trajectory prediction of
`drawTrajectory`.

The sprite module that `engine.ts` imports (`GameSprite` with
`radius`/`health`/`immutable`/`takeDamage`, `PlanetSprite`,
`applyGravityField`) is not present in the source tree (the `sprite.ts`
shipped alongside is an earlier revision without those members), and the
`constants` module (`TILE_SIZE`, planet/asteroid radii) is absent as well.
Those parts are modelled from the specification and are marked
`Modelled from the spec:` on their declarations.

Numeric conventions: the engine computes with JavaScript floating point
numbers; every floating value appearing here is modelled as a rational
(every IEEE double is a rational).  The two places the engine calls
`Math.sqrt` are handled as documented on `collisionHit` (an exact
square-comparison equivalent) and on `predictTrajectory` (the square-root
routine is abstracted as a function parameter).
-/

/-- One gravity-field contribution, recorded at a cell by the accumulator:
the source center, source radius (in tiles) and strength.

Modelled from the spec: `applyGravityField` lives in the sprite module that
is missing from the source tree.  Per spec section 4.2 the numeric value of a
cell's accumulator is the linear superposition of the contributions applied
to it (each contribution being the normalized direction toward the source
scaled by `strength`), so the ordered list of recorded contributions
determines the field; the embedding stores that list. -/
structure GravSrc where
  srcX : Int
  srcY : Int
  radius : Nat
  strength : ℚ
deriving DecidableEq, Repr

/-- The closed set of entity kinds (spec section 3, Entity data model). -/
inductive SpriteKind
  | planet
  | blackhole
  | asteroid
  | turret
  | bunny
  | generic
deriving DecidableEq, Repr

/-- Entity record.  Modelled from the spec (section 3/4.3): the sprite class
hierarchy is in the missing sprite module; `kind = .planet` stands for
`instanceof PlanetSprite`, `name`/`typeStr` are the `name`/`type` string
fields `engine.ts` compares against, `posX/posY` is the world position of
the visual display object, and `vx/vy` the velocity. -/
structure GameSprite where
  kind : SpriteKind
  name : String
  typeStr : String
  immutable : Bool
  radius : Nat
  health : Int
  maxHealth : Int
  posX : ℚ
  posY : ℚ
  vx : ℚ
  vy : ℚ
deriving DecidableEq, Repr

/-- One grid cell, as initialized in the `Engine` constructor
(`{ gravity, sprite: null, occupied: false }` with the optional
`centerX`/`centerY` owner coordinates used by multi-tile occupancy). -/
structure GridCell where
  gravity : List GravSrc
  sprite : Option GameSprite
  occupied : Bool
  centerX : Option Int
  centerY : Option Int
deriving DecidableEq, Repr

/-- The initial cell state from the `Engine` constructor. -/
def emptyCell : GridCell :=
  { gravity := [], sprite := none, occupied := false, centerX := none, centerY := none }

/-- The engine grid: fixed dimensions plus the cell contents, represented as
a total function on integer coordinates.  Coordinates outside
`[0,width) × [0,height)` are never observed by a bounds-checked read; the
access helper `cellAt` returns `none` there, mirroring the `undefined`
JavaScript produces for an out-of-range array index. -/
structure Grid where
  width : Nat
  height : Nat
  cells : Int → Int → GridCell

/-- Modelled from the spec: `TILE_SIZE` is defined in the missing constants
module; spec section 8 (and the earlier `main.ts` revision) fix it at 64. -/
def TILE_SIZE : ℚ := 64

/-- Bounds test used throughout `engine.ts`
(`x >= 0 && x < GRID_WIDTH && y >= 0 && y < GRID_HEIGHT`). -/
def inBounds (g : Grid) (x y : Int) : Bool :=
  0 ≤ x && x < (g.width : Int) && 0 ≤ y && y < (g.height : Int)

/-- Reading `this.grid[y][x]`: in bounds it yields the cell, out of bounds
JavaScript yields `undefined` (and dereferencing it throws), modelled as
`none`. -/
def cellAt (g : Grid) (x y : Int) : Option GridCell :=
  if inBounds g x y then some (g.cells x y) else none

/-- Pointwise cell update. -/
def setCell (g : Grid) (x y : Int) (c : GridCell) : Grid :=
  { g with cells := fun i j => if i = x ∧ j = y then c else g.cells i j }

/-- Embedding of `Engine.gridToWorld`: the world coordinate of a tile center. -/
def gridToWorld (gridX gridY : Int) : ℚ × ℚ :=
  ((gridX : ℚ) * TILE_SIZE + TILE_SIZE / 2, (gridY : ℚ) * TILE_SIZE + TILE_SIZE / 2)

/-- Embedding of `Engine.getCellsInRadius`: all cells within the disk
`dx*dx + dy*dy <= radius*radius` around the center, enumerated exactly in
the source's loop order (`dy` outer from `-radius` to `radius`, `dx` inner). -/
def getCellsInRadius (centerX centerY : Int) (radius : Nat) : List (Int × Int) :=
  (List.range (2 * radius + 1)).flatMap fun j =>
    (List.range (2 * radius + 1)).filterMap fun i =>
      let dy : Int := (j : Int) - (radius : Int)
      let dx : Int := (i : Int) - (radius : Int)
      if dx * dx + dy * dy ≤ (radius : Int) * (radius : Int) then
        some (centerX + dx, centerY + dy)
      else
        none

/-- Embedding of `Engine.canPlaceInRadius`: every footprint cell must be in bounds and
unoccupied. -/
def canPlaceInRadius (g : Grid) (centerX centerY : Int) (radius : Nat) : Bool :=
  (getCellsInRadius centerX centerY radius).all fun p =>
    inBounds g p.1 p.2 && !(g.cells p.1 p.2).occupied

/-- Generic cell-write fold: apply a cell-local writer to each listed
position in order.  Every footprint-mutating loop of `engine.ts` is an
instance of this shape. -/
def foldCells (f : Int × Int → GridCell → GridCell) (cells : List (Int × Int)) (g : Grid) :
    Grid :=
  cells.foldl (fun acc p => setCell acc p.1 p.2 (f p (acc.cells p.1 p.2))) g

/-- Writer for `placeSprite`'s occupation loop: mark occupied, record the
owner coordinates, and store the sprite reference only on the center cell. -/
def occupyWriter (gridX gridY : Int) (s : GameSprite) (p : Int × Int) (c : GridCell) :
    GridCell :=
  let c := { c with occupied := true, centerX := some gridX, centerY := some gridY }
  if p.1 = gridX ∧ p.2 = gridY then { c with sprite := some s } else c

/-- The `placeSprite` occupation loop (engine.ts lines 1039-1048). -/
def occupyCells (g : Grid) (cells : List (Int × Int)) (gridX gridY : Int) (s : GameSprite) :
    Grid :=
  foldCells (occupyWriter gridX gridY s) cells g

/-- Writer clearing a cell unconditionally (`removeSprite` / `moveSprite`
clear loops). -/
def clearWriter (_p : Int × Int) (c : GridCell) : GridCell :=
  { c with occupied := false, sprite := none, centerX := none, centerY := none }

/-- The `removeSprite`/`moveSprite` footprint clearing (no per-cell guard). -/
def clearCells (g : Grid) (cells : List (Int × Int)) : Grid :=
  foldCells clearWriter cells g

/-- Modelled from the spec: `applyGravityField` of the missing sprite
module, per spec section 4.2 — for every footprint cell that lies in
bounds, add (never overwrite) the source's contribution to the cell's
accumulator; cells outside the grid are skipped.  The contribution is
recorded as a `GravSrc` entry (see its docstring). -/
def applyGravityField (g : Grid) (centerX centerY : Int) (radius : Nat) (strength : ℚ) :
    Grid :=
  foldCells
    (fun p c =>
      if inBounds g p.1 p.2 then
        { c with gravity := c.gravity ++ [⟨centerX, centerY, radius, strength⟩] }
      else c)
    (getCellsInRadius centerX centerY radius) g

/-- The repositioned sprite stored by `placeSprite`: the source mutates the
stored object with `sprite.getDisplay().position.set(worldPos)`; in the
value-level embedding the position update is applied to the record before it
is stored, which yields the same final state. -/
def positionSprite (s : GameSprite) (gridX gridY : Int) : GameSprite :=
  { s with posX := (gridToWorld gridX gridY).1, posY := (gridToWorld gridX gridY).2 }

/-- Embedding of `Engine.placeSprite` (engine.ts lines 1033-1076): reject if the
footprint is unavailable, otherwise occupy the footprint, position the
sprite, and — for gravity-source kinds — invoke the gravity field
accumulator with the kind-specific pair (planet via
`instanceof PlanetSprite`, black hole and asteroid via the literal `type`
string comparisons of the source).  Returns the new grid and the success
flag. -/
def placeSprite (g : Grid) (gridX gridY : Int) (s : GameSprite) : Grid × Bool :=
  if !canPlaceInRadius g gridX gridY s.radius then (g, false)
  else
    let s1 := positionSprite s gridX gridY
    let g1 := occupyCells g (getCellsInRadius gridX gridY s.radius) gridX gridY s1
    let g2 := if s.kind = SpriteKind.planet then applyGravityField g1 gridX gridY 35 (1/2) else g1
    let g3 := if s.typeStr = "blackhole" then applyGravityField g2 gridX gridY 30 1 else g2
    let g4 := if s.typeStr = "Asteroid" then applyGravityField g3 gridX gridY 10 (1/10) else g3
    (g4, true)

/-- Embedding of `Engine.removeSprite` (engine.ts lines 1079-1117).  The very first
statement reads `this.grid[gridY][gridX]` and then `cell.sprite` with no
bounds check, so an out-of-bounds coordinate makes JavaScript throw a
`TypeError`; that is the `Except.error` case.  On a sprite-less cell it
returns `false`; otherwise it clears the footprint (the source additionally
detaches visuals and plays effects, which are outside the embedded state).
The source would also throw if a footprint cell were out of bounds; for a
legally placed sprite the whole footprint is in bounds, and the embedding's
pointwise update writes outside the observable range instead. -/
def removeSprite (g : Grid) (gridX gridY : Int) : Except String (Grid × Bool) :=
  match cellAt g gridX gridY with
  | none => Except.error "TypeError"
  | some c =>
    match c.sprite with
    | none => Except.ok (g, false)
    | some s => Except.ok (clearCells g (getCellsInRadius gridX gridY s.radius), true)

/-- Writer toggling only the `occupied` flag (`moveSprite`'s temporary
vacate/restore loops). -/
def setOccupiedWriter (b : Bool) (_p : Int × Int) (c : GridCell) : GridCell :=
  { c with occupied := b }

/-- The `moveSprite` vacate/restore loops over the source footprint. -/
def setOccupied (g : Grid) (cells : List (Int × Int)) (b : Bool) : Grid :=
  foldCells (setOccupiedWriter b) cells g

/-- Embedding of `Engine.moveSprite` (engine.ts lines 1120-1173).  Like `removeSprite`,
the unguarded initial read of the source cell throws on an out-of-bounds
source coordinate.  Otherwise: temporarily vacate the source footprint,
check the destination, restore, and on success clear the source footprint
and occupy the destination. -/
def moveSprite (g : Grid) (fromX fromY toX toY : Int) : Except String (Grid × Bool) :=
  match cellAt g fromX fromY with
  | none => Except.error "TypeError"
  | some fromCell =>
    match fromCell.sprite with
    | none => Except.ok (g, false)
    | some s =>
      let sourceCells := getCellsInRadius fromX fromY s.radius
      let gTmp := setOccupied g sourceCells false
      let canPlace := canPlaceInRadius gTmp toX toY s.radius
      let gRest := setOccupied gTmp sourceCells true
      if !canPlace then Except.ok (gRest, false)
      else
        let g1 := clearCells gRest sourceCells
        let s1 := positionSprite s toX toY
        let g2 := occupyCells g1 (getCellsInRadius toX toY s.radius) toX toY s1
        Except.ok (g2, true)

/-- Modelled from the spec (section 4.3): `update(deltaTime, ax, ay)` of a
movable sprite in the missing sprite module — semi-implicit Euler: add
`(ax, ay) * deltaTime` to the velocity, then advance the position by
`velocity * deltaTime`. -/
def spriteUpdate (s : GameSprite) (dt ax ay : ℚ) : GameSprite :=
  let vx := s.vx + ax * dt
  let vy := s.vy + ay * dt
  { s with vx := vx, vy := vy, posX := s.posX + vx * dt, posY := s.posY + vy * dt }

/-- Modelled from the spec (section 4.3): `takeDamage(amount)` of the
missing sprite module — reduce health and report destruction when health
reaches zero or below. -/
def takeDamage (s : GameSprite) (amount : Int) : GameSprite × Bool :=
  let s1 := { s with health := s.health - amount }
  (s1, s1.health ≤ 0)

/-- JavaScript falsiness of the optional owner coordinate: the source's
`!checkCell.centerX` is true both for `undefined` and for the number 0. -/
def jsFalsyOptInt : Option Int → Bool
  | none => true
  | some v => v == 0

/-- One candidate of the tick's collision scan (engine.ts lines 837-851):
the cell must hold an immutable sprite, pass the source's center-cell test,
and the moving sprite's position must be strictly within the target's
radius in world units.  The source compares
`Math.sqrt(dx*dx + dy*dy) < radius * TILE_SIZE`; both sides are
nonnegative, so the embedding uses the exact equivalent
`dx*dx + dy*dy < (radius * TILE_SIZE)^2` to stay in rational arithmetic. -/
def collisionHit (g : Grid) (px py : ℚ) (checkX checkY : Int) : Option GameSprite :=
  let c := g.cells checkX checkY
  match c.sprite with
  | none => none
  | some t =>
    if t.immutable
        ∧ (jsFalsyOptInt c.centerX ∨ (c.centerX = some checkX ∧ c.centerY = some checkY))
        ∧ (px - t.posX) * (px - t.posX) + (py - t.posY) * (py - t.posY)
            < ((t.radius : ℚ) * TILE_SIZE) * ((t.radius : ℚ) * TILE_SIZE) then
      some t
    else none

/-- The scan order of the collision loop: `checkY` outer from 0, `checkX`
inner. -/
def scanPositions (g : Grid) : List (Int × Int) :=
  (List.range g.height).flatMap fun j =>
    (List.range g.width).map fun i => ((i : Int), (j : Int))

/-- The collision scan: the first immutable center within collision range
of the moved sprite's position, in the source's row-major order (the loop
sets `collision = true` and breaks at the first hit). -/
def findCollision (g : Grid) (px py : ℚ) : Option ((Int × Int) × GameSprite) :=
  (scanPositions g).findSome? fun p =>
    (collisionHit g px py p.1 p.2).map fun t => (p, t)

/-- Writer of the collision path's guarded clearing loops (engine.ts lines
869-881 and 897-909): clear the cell only when it is in bounds and its
recorded owner coordinates equal the given center. -/
def clearOwnedWriter (w h : Nat) (ownX ownY : Int) (p : Int × Int) (c : GridCell) :
    GridCell :=
  if (0 ≤ p.1 ∧ p.1 < (w : Int) ∧ 0 ≤ p.2 ∧ p.2 < (h : Int))
      ∧ c.centerX = some ownX ∧ c.centerY = some ownY then
    { c with occupied := false, sprite := none, centerX := none, centerY := none }
  else c

/-- Collision-path clearing of the cells owned by the entity centered at
`(ownX, ownY)`. -/
def clearOwnedCells (g : Grid) (cells : List (Int × Int)) (ownX ownY : Int) : Grid :=
  foldCells (clearOwnedWriter g.width g.height ownX ownY) cells g

/-- Writer of the relocation path's bounds-checked clearing loop
(engine.ts lines 923-931): clear every in-bounds footprint cell, with no
ownership guard. -/
def clearInBoundsWriter (w h : Nat) (p : Int × Int) (c : GridCell) : GridCell :=
  if 0 ≤ p.1 ∧ p.1 < (w : Int) ∧ 0 ≤ p.2 ∧ p.2 < (h : Int) then
    { c with occupied := false, sprite := none, centerX := none, centerY := none }
  else c

/-- Relocation-path clearing of the old footprint. -/
def clearCellsInBounds (g : Grid) (cells : List (Int × Int)) : Grid :=
  foldCells (clearInBoundsWriter g.width g.height) cells g

/-- Writer of the relocation path's bounds-checked occupation loop
(engine.ts lines 938-948). -/
def occupyInBoundsWriter (w h : Nat) (gridX gridY : Int) (s : GameSprite)
    (p : Int × Int) (c : GridCell) : GridCell :=
  if 0 ≤ p.1 ∧ p.1 < (w : Int) ∧ 0 ≤ p.2 ∧ p.2 < (h : Int) then
    let c := { c with occupied := true, centerX := some gridX, centerY := some gridY }
    if p.1 = gridX ∧ p.2 = gridY then { c with sprite := some s } else c
  else c

/-- Relocation-path occupation of the new footprint. -/
def occupyCellsInBounds (g : Grid) (cells : List (Int × Int)) (gridX gridY : Int)
    (s : GameSprite) : Grid :=
  foldCells (occupyInBoundsWriter g.width g.height gridX gridY s) cells g

/-- A reported collision outcome of a tick, for the collision target
(engine.ts lines 866-893): either destruction, or damage with the target's
health after the tick (the source logs exactly one of the two). -/
inductive TickEvent
  | destroyed (targetX targetY : Int)
  | damaged (targetX targetY : Int) (newHealth : Int)
deriving DecidableEq, Repr

/-- The grid coordinates the outcome refers to. -/
def eventTarget : TickEvent → Int × Int
  | TickEvent.destroyed tx ty => (tx, ty)
  | TickEvent.damaged tx ty _ => (tx, ty)

/-- The moved sprite of a tick (engine.ts lines 814-828): the current grid
cell is derived from the world position before the update, that cell's
gravity is sampled (zero out of bounds), and `update` is called.  `gval` is
the numeric read-out of a cell's gravity accumulator (`gravity.ax/ay`); the
true read-out is the superposition of the recorded contributions, whose
normalization is a square root, so the embedding takes the read-out as a
parameter and the theorems hold for every read-out. -/
def tickS1 (gval : List GravSrc → ℚ × ℚ) (g : Grid) (dt : ℚ) (s : GameSprite) :
    GameSprite :=
  let curX : Int := ⌊s.posX / TILE_SIZE⌋
  let curY : Int := ⌊s.posY / TILE_SIZE⌋
  let a := if inBounds g curX curY then gval ((g.cells curX curY).gravity) else (0, 0)
  spriteUpdate s dt a.1 a.2

/-- The grid after the moved sprite's record is written back to its center
cell: the source mutates the object the cell references, which the
value-level embedding realizes as an update of the center cell. -/
def tickG0 (gval : List GravSrc → ℚ × ℚ) (g : Grid) (x y : Int) (dt : ℚ)
    (s : GameSprite) : Grid :=
  setCell g x y { g.cells x y with sprite := some (tickS1 gval g dt s) }

/-- Per-tick processing of the sprite registered at grid cell `(x, y)`
(engine.ts lines 806-953, the body of the sprite-update loop for one center
cell): a sprite with zero velocity is static (its `update` only touches
visual state, so the grid is unchanged); a moving sprite is advanced, then
scanned against every immutable center.  On a collision: 100 damage is
applied unless the target is named "Black Hole", the target's footprint is
cleared (owner-guarded) when it was destroyed, and the moving sprite's old
footprint is cleared (owner-guarded) unconditionally.  With no collision,
the sprite is re-indexed when the pre-update position's cell differs from
`(x, y)`. -/
def tickMove (gval : List GravSrc → ℚ × ℚ) (g : Grid) (x y : Int) (dt : ℚ) :
    Grid × Option TickEvent :=
  match (g.cells x y).sprite with
  | none => (g, none)
  | some s =>
    if s.vx = 0 ∧ s.vy = 0 then (g, none)
    else
      let s1 := tickS1 gval g dt s
      let g0 := tickG0 gval g x y dt s
      match findCollision g0 s1.posX s1.posY with
      | some (tpos, t) =>
        let td := if t.name = "Black Hole" then (t, false) else takeDamage t 100
        let g1 :=
          if td.2 then clearOwnedCells g0 (getCellsInRadius tpos.1 tpos.2 t.radius) tpos.1 tpos.2
          else if t.name = "Black Hole" then g0
          else setCell g0 tpos.1 tpos.2 { g0.cells tpos.1 tpos.2 with sprite := some td.1 }
        let g2 := clearOwnedCells g1 (getCellsInRadius x y s1.radius) x y
        (g2, some (if td.2 then TickEvent.destroyed tpos.1 tpos.2
                   else TickEvent.damaged tpos.1 tpos.2 td.1.health))
      | none =>
        let curX : Int := ⌊s.posX / TILE_SIZE⌋
        let curY : Int := ⌊s.posY / TILE_SIZE⌋
        if curX = x ∧ curY = y then (g0, none)
        else
          let g1 := clearCellsInBounds g0 (getCellsInRadius x y s1.radius)
          let g2 :=
            if inBounds g1 curX curY then
              occupyCellsInBounds g1 (getCellsInRadius curX curY s1.radius) curX curY s1
            else g1
          (g2, none)

/-- A tick request: which center cell to process, the frame delta, and the
gravity read-out in effect (see `tickS1`). -/
structure TickSpec where
  x : Int
  y : Int
  dt : ℚ
  gval : List GravSrc → ℚ × ℚ

/-- Run a sequence of per-sprite tick steps, collecting each step's
reported outcome. -/
def runTicks (g : Grid) : List TickSpec → Grid × List (Option TickEvent)
  | [] => (g, [])
  | sp :: rest =>
    let r := tickMove sp.gval g sp.x sp.y sp.dt
    let rr := runTicks r.1 rest
    (rr.1, r.2 :: rr.2)

/-- Decidable form of "this tick outcome exists and refers to cell `p`". -/
def targetsCell (p : Int × Int) : Option TickEvent → Bool
  | none => false
  | some e => eventTarget e == p

/-- The body of one successful planet placement attempt of
`Engine.generateWorld` (engine.ts lines 296-319): guard with
`canPlaceInRadius(x, y, PLANET_RADIUS)`, place the planet sprite, and then
invoke `applyGravityField(grid, x, y, 35, 0.5)` once more — in addition to
the invocation `placeSprite` itself performs for a planet.
`planetRadius` stands for the constant `PLANET_RADIUS` of the missing
constants module. -/
def generateWorldPlanetStep (g : Grid) (x y : Int) (planetRadius : Nat)
    (planet : GameSprite) : Grid :=
  if canPlaceInRadius g x y planetRadius then
    applyGravityField (placeSprite g x y planet).1 x y 35 (1/2)
  else g

/-- One integration step of `Engine.drawTrajectory` (engine.ts lines
1230-1266), written with the simulation delta fixed at 1 as in the source:
sample gravity at the current cell (zero out of bounds), add it to the
velocity, clamp the speed at 8, and advance the position.  `msqrt` stands
for `Math.sqrt` (the host's floating square-root routine, abstracted as a
parameter), `gval` for the gravity read-out as in `tickS1`. -/
def trajStep (msqrt : ℚ → ℚ) (gval : List GravSrc → ℚ × ℚ) (g : Grid)
    (posX posY vx vy : ℚ) : ℚ × ℚ × ℚ × ℚ :=
  let gridX : Int := ⌊posX / TILE_SIZE⌋
  let gridY : Int := ⌊posY / TILE_SIZE⌋
  let a := if inBounds g gridX gridY then gval ((g.cells gridX gridY).gravity) else (0, 0)
  let vx := vx + a.1
  let vy := vy + a.2
  let speed := msqrt (vx * vx + vy * vy)
  let v2 := if speed > 8 then (vx / speed * 8, vy / speed * 8) else (vx, vy)
  (posX + v2.1, posY + v2.2, v2.1, v2.2)

/-- The simulation loop of `drawTrajectory`: up to `fuel` steps, stopping
(without recording the point) once the position leaves
`[0, width*TILE_SIZE] × [0, height*TILE_SIZE]`. -/
def trajGo (msqrt : ℚ → ℚ) (gval : List GravSrc → ℚ × ℚ) (g : Grid) :
    Nat → ℚ → ℚ → ℚ → ℚ → List (ℚ × ℚ)
  | 0, _, _, _, _ => []
  | Nat.succ n, posX, posY, vx, vy =>
    let st := trajStep msqrt gval g posX posY vx vy
    if st.1 < 0 ∨ st.1 > (g.width : ℚ) * TILE_SIZE
        ∨ st.2.1 < 0 ∨ st.2.1 > (g.height : ℚ) * TILE_SIZE then []
    else (st.1, st.2.1) :: trajGo msqrt gval g n st.1 st.2.1 st.2.2.1 st.2.2.2

/-- The trajectory prediction of `Engine.drawTrajectory` (engine.ts lines
1208-1266): initial velocity is the drag delta `(start - mouse)` scaled by
0.1; the path starts at the launched sprite's position and is simulated for
at most 200 steps. -/
def predictTrajectory (msqrt : ℚ → ℚ) (gval : List GravSrc → ℚ × ℚ) (g : Grid)
    (startX startY mouseX mouseY spriteX spriteY : ℚ) : List (ℚ × ℚ) :=
  let vx := (startX - mouseX) * (1/10)
  let vy := (startY - mouseY) * (1/10)
  (spriteX, spriteY) :: trajGo msqrt gval g 200 spriteX spriteY vx vy

theorem setCell_cells (g : Grid) (x y : Int) (c : GridCell) (i j : Int) :
    (setCell g x y c).cells i j = if i = x ∧ j = y then c else g.cells i j := rfl

theorem setCell_width (g : Grid) (x y : Int) (c : GridCell) :
    (setCell g x y c).width = g.width := rfl

theorem setCell_height (g : Grid) (x y : Int) (c : GridCell) :
    (setCell g x y c).height = g.height := rfl

theorem foldCells_cons (f : Int × Int → GridCell → GridCell) (q : Int × Int)
    (rest : List (Int × Int)) (g : Grid) :
    foldCells f (q :: rest) g =
      foldCells f rest (setCell g q.1 q.2 (f q (g.cells q.1 q.2))) := rfl

theorem foldCells_width (f : Int × Int → GridCell → GridCell) (cells : List (Int × Int))
    (g : Grid) : (foldCells f cells g).width = g.width := by
  induction cells generalizing g with
  | nil => rfl
  | cons q rest ih => rw [foldCells_cons, ih, setCell_width]

theorem foldCells_height (f : Int × Int → GridCell → GridCell) (cells : List (Int × Int))
    (g : Grid) : (foldCells f cells g).height = g.height := by
  induction cells generalizing g with
  | nil => rfl
  | cons q rest ih => rw [foldCells_cons, ih, setCell_height]

theorem foldCells_not_mem (f : Int × Int → GridCell → GridCell) {cells : List (Int × Int)}
    (g : Grid) {p : Int × Int} (hp : p ∉ cells) :
    (foldCells f cells g).cells p.1 p.2 = g.cells p.1 p.2 := by
  induction cells generalizing g with
  | nil => rfl
  | cons q rest ih =>
    simp only [List.mem_cons, not_or] at hp
    rw [foldCells_cons, ih _ hp.2, setCell_cells, if_neg]
    intro hcon
    exact hp.1 (Prod.ext hcon.1 hcon.2)

theorem foldCells_mem_idem (f : Int × Int → GridCell → GridCell)
    (hidem : ∀ p c, f p (f p c) = f p c) {cells : List (Int × Int)} (g : Grid)
    {p : Int × Int} (hp : p ∈ cells) :
    (foldCells f cells g).cells p.1 p.2 = f p (g.cells p.1 p.2) := by
  induction cells generalizing g with
  | nil => cases hp
  | cons q rest ih =>
    rw [foldCells_cons]
    by_cases hpr : p ∈ rest
    · rw [ih _ hpr, setCell_cells]
      by_cases hpq : p.1 = q.1 ∧ p.2 = q.2
      · have hq : q = p := (Prod.ext hpq.1 hpq.2).symm
        subst hq
        rw [if_pos hpq, hidem]
      · rw [if_neg hpq]
    · have hpq : p = q := by
        rcases List.mem_cons.mp hp with h | h
        · exact h
        · exact absurd h hpr
      subst hpq
      rw [foldCells_not_mem f _ hpr, setCell_cells, if_pos ⟨rfl, rfl⟩]

theorem foldCells_preserve {α : Type} (proj : GridCell → α)
    (f : Int × Int → GridCell → GridCell) (hpres : ∀ p c, proj (f p c) = proj c)
    (cells : List (Int × Int)) (g : Grid) (i j : Int) :
    proj ((foldCells f cells g).cells i j) = proj (g.cells i j) := by
  induction cells generalizing g with
  | nil => rfl
  | cons q rest ih =>
    rw [foldCells_cons, ih, setCell_cells]
    by_cases hq : i = q.1 ∧ j = q.2
    · rw [if_pos hq, hpres, hq.1, hq.2]
    · rw [if_neg hq]

theorem center_mem_getCellsInRadius (cx cy : Int) (r : Nat) :
    (cx, cy) ∈ getCellsInRadius cx cy r := by
  unfold getCellsInRadius
  simp only [List.mem_flatMap, List.mem_filterMap, List.mem_range]
  refine ⟨r, by omega, (r : Int), ?_, ?_⟩
  · simp
    omega
  · simp [mul_self_nonneg]

theorem canPlace_spec {g : Grid} {cx cy : Int} {r : Nat}
    (h : canPlaceInRadius g cx cy r = true) :
    ∀ p ∈ getCellsInRadius cx cy r,
      inBounds g p.1 p.2 = true ∧ (g.cells p.1 p.2).occupied = false := by
  intro p hp
  have h2 := List.all_eq_true.mp h p hp
  simp only [Bool.and_eq_true, Bool.not_eq_true'] at h2
  exact h2

theorem canPlace_false_of_bad {g : Grid} {cx cy : Int} {r : Nat} {p : Int × Int}
    (hp : p ∈ getCellsInRadius cx cy r)
    (hbad : inBounds g p.1 p.2 = false ∨ (g.cells p.1 p.2).occupied = true) :
    canPlaceInRadius g cx cy r = false := by
  by_contra h
  have h1 := canPlace_spec (Bool.of_not_eq_false h) p hp
  rcases hbad with hb | hb
  · rw [h1.1] at hb; cases hb
  · rw [h1.2] at hb; cases hb

theorem occupyWriter_idem (gx gy : Int) (s : GameSprite) :
    ∀ p c, occupyWriter gx gy s p (occupyWriter gx gy s p c) = occupyWriter gx gy s p c := by
  intro p c
  unfold occupyWriter
  by_cases h : p.1 = gx ∧ p.2 = gy <;> simp [h]

theorem clearWriter_idem : ∀ p c, clearWriter p (clearWriter p c) = clearWriter p c := by
  intro p c
  rfl

theorem setOccupiedWriter_idem (b : Bool) :
    ∀ p c, setOccupiedWriter b p (setOccupiedWriter b p c) = setOccupiedWriter b p c := by
  intro p c
  rfl

theorem clearOwnedWriter_idem (w h : Nat) (ox oy : Int) :
    ∀ p c, clearOwnedWriter w h ox oy p (clearOwnedWriter w h ox oy p c)
      = clearOwnedWriter w h ox oy p c := by
  intro p c
  unfold clearOwnedWriter
  by_cases hg : ((0 ≤ p.1 ∧ p.1 < (w : Int) ∧ 0 ≤ p.2 ∧ p.2 < (h : Int))
      ∧ c.centerX = some ox ∧ c.centerY = some oy) <;> simp [hg]

theorem clearInBoundsWriter_idem (w h : Nat) :
    ∀ p c, clearInBoundsWriter w h p (clearInBoundsWriter w h p c)
      = clearInBoundsWriter w h p c := by
  intro p c
  unfold clearInBoundsWriter
  by_cases hg : (0 ≤ p.1 ∧ p.1 < (w : Int) ∧ 0 ≤ p.2 ∧ p.2 < (h : Int)) <;> simp [hg]

theorem occupyInBoundsWriter_idem (w h : Nat) (gx gy : Int) (s : GameSprite) :
    ∀ p c, occupyInBoundsWriter w h gx gy s p (occupyInBoundsWriter w h gx gy s p c)
      = occupyInBoundsWriter w h gx gy s p c := by
  intro p c
  unfold occupyInBoundsWriter
  by_cases hg : (0 ≤ p.1 ∧ p.1 < (w : Int) ∧ 0 ≤ p.2 ∧ p.2 < (h : Int))
  · by_cases hc : p.1 = gx ∧ p.2 = gy
    · have hg2 : 0 ≤ gx ∧ gx < (w : Int) ∧ 0 ≤ gy ∧ gy < (h : Int) := by
        rw [← hc.1, ← hc.2]
        exact hg
      simp [hg, hc, hg2]
    · simp [hg, hc]
  · simp [hg]

theorem occupyWriter_gravity (gx gy : Int) (s : GameSprite) (p : Int × Int) (c : GridCell) :
    (occupyWriter gx gy s p c).gravity = c.gravity := by
  unfold occupyWriter
  by_cases h : p.1 = gx ∧ p.2 = gy <;> simp [h]

theorem clearWriter_gravity (p : Int × Int) (c : GridCell) :
    (clearWriter p c).gravity = c.gravity := rfl

theorem setOccupiedWriter_gravity (b : Bool) (p : Int × Int) (c : GridCell) :
    (setOccupiedWriter b p c).gravity = c.gravity := rfl

theorem clearOwnedWriter_gravity (w h : Nat) (ox oy : Int) (p : Int × Int) (c : GridCell) :
    (clearOwnedWriter w h ox oy p c).gravity = c.gravity := by
  unfold clearOwnedWriter
  by_cases hg : ((0 ≤ p.1 ∧ p.1 < (w : Int) ∧ 0 ≤ p.2 ∧ p.2 < (h : Int))
      ∧ c.centerX = some ox ∧ c.centerY = some oy) <;> simp [hg]

theorem clearInBoundsWriter_gravity (w h : Nat) (p : Int × Int) (c : GridCell) :
    (clearInBoundsWriter w h p c).gravity = c.gravity := by
  unfold clearInBoundsWriter
  by_cases hg : (0 ≤ p.1 ∧ p.1 < (w : Int) ∧ 0 ≤ p.2 ∧ p.2 < (h : Int)) <;> simp [hg]

theorem occupyInBoundsWriter_gravity (w h : Nat) (gx gy : Int) (s : GameSprite)
    (p : Int × Int) (c : GridCell) :
    (occupyInBoundsWriter w h gx gy s p c).gravity = c.gravity := by
  unfold occupyInBoundsWriter
  by_cases hg : (0 ≤ p.1 ∧ p.1 < (w : Int) ∧ 0 ≤ p.2 ∧ p.2 < (h : Int))
  · by_cases hc : p.1 = gx ∧ p.2 = gy
    · simp only [hg, hc, if_true, if_pos]
      split <;> simp
    · simp [hg, hc]
  · simp [hg]

/-- The occupancy-relevant projection of a cell: everything except the
gravity accumulator. -/
def occPart (c : GridCell) : Option GameSprite × Bool × Option Int × Option Int :=
  (c.sprite, c.occupied, c.centerX, c.centerY)

theorem gravityWriter_occPart (g : Grid) (src : GravSrc) (p : Int × Int) (c : GridCell) :
    occPart (if inBounds g p.1 p.2 then { c with gravity := c.gravity ++ [src] } else c)
      = occPart c := by
  by_cases h : inBounds g p.1 p.2 <;> simp [h, occPart]

theorem applyGravityField_occPart (g : Grid) (cx cy : Int) (r : Nat) (str : ℚ)
    (i j : Int) :
    occPart ((applyGravityField g cx cy r str).cells i j) = occPart (g.cells i j) := by
  unfold applyGravityField
  exact foldCells_preserve occPart _ (fun p c => gravityWriter_occPart g _ p c) _ g i j

theorem occPart_sprite {c1 c2 : GridCell} (h : occPart c1 = occPart c2) :
    c1.sprite = c2.sprite := congrArg Prod.fst h

theorem occPart_occupied {c1 c2 : GridCell} (h : occPart c1 = occPart c2) :
    c1.occupied = c2.occupied := congrArg (fun t => t.2.1) h

theorem occPart_centerX {c1 c2 : GridCell} (h : occPart c1 = occPart c2) :
    c1.centerX = c2.centerX := congrArg (fun t => t.2.2.1) h

theorem occPart_centerY {c1 c2 : GridCell} (h : occPart c1 = occPart c2) :
    c1.centerY = c2.centerY := congrArg (fun t => t.2.2.2) h

theorem applyGravityField_width (g : Grid) (cx cy : Int) (r : Nat) (str : ℚ) :
    (applyGravityField g cx cy r str).width = g.width := foldCells_width _ _ _

theorem applyGravityField_height (g : Grid) (cx cy : Int) (r : Nat) (str : ℚ) :
    (applyGravityField g cx cy r str).height = g.height := foldCells_height _ _ _

theorem ite_applyGravityField_occPart (b : Prop) [Decidable b] (gg : Grid)
    (cx cy : Int) (r : Nat) (str : ℚ) (i j : Int) :
    occPart ((if b then applyGravityField gg cx cy r str else gg).cells i j)
      = occPart (gg.cells i j) := by
  split
  · exact applyGravityField_occPart gg cx cy r str i j
  · rfl

theorem ite_applyGravityField_width (b : Prop) [Decidable b] (gg : Grid)
    (cx cy : Int) (r : Nat) (str : ℚ) :
    (if b then applyGravityField gg cx cy r str else gg).width = gg.width := by
  split
  · exact applyGravityField_width gg cx cy r str
  · rfl

theorem ite_applyGravityField_height (b : Prop) [Decidable b] (gg : Grid)
    (cx cy : Int) (r : Nat) (str : ℚ) :
    (if b then applyGravityField gg cx cy r str else gg).height = gg.height := by
  split
  · exact applyGravityField_height gg cx cy r str
  · rfl

/-- On a successful guard, `placeSprite` is the occupation fold followed by
the three conditional gravity-source invocations. -/
theorem placeSprite_success_eq {g : Grid} {x y : Int} {s : GameSprite}
    (hcan : canPlaceInRadius g x y s.radius = true) :
    placeSprite g x y s =
      (let s1 := positionSprite s x y
       let g1 := occupyCells g (getCellsInRadius x y s.radius) x y s1
       let g2 := if s.kind = SpriteKind.planet then applyGravityField g1 x y 35 (1/2) else g1
       let g3 := if s.typeStr = "blackhole" then applyGravityField g2 x y 30 1 else g2
       let g4 := if s.typeStr = "Asteroid" then applyGravityField g3 x y 10 (1/10) else g3
       (g4, true)) := by
  unfold placeSprite
  rw [hcan]
  rfl

/-- Shared failure lemma: any bad footprint cell makes `placeSprite` return
`false` with the grid untouched. -/
theorem placeSprite_fail {g : Grid} {x y : Int} {s : GameSprite} {p : Int × Int}
    (hp : p ∈ getCellsInRadius x y s.radius)
    (hbad : inBounds g p.1 p.2 = false ∨ (g.cells p.1 p.2).occupied = true) :
    placeSprite g x y s = (g, false) := by
  have hcan := canPlace_false_of_bad hp hbad
  unfold placeSprite
  rw [hcan]
  rfl

/-- The occupancy state of a successful placement's result, expressed
through the occupation writer. -/
theorem placeSprite_success_cells {g : Grid} {x y : Int} {s : GameSprite} {g' : Grid}
    (hp : placeSprite g x y s = (g', true)) (i j : Int) :
    occPart (g'.cells i j) =
      occPart ((occupyCells g (getCellsInRadius x y s.radius) x y
        (positionSprite s x y)).cells i j) := by
  by_cases hcan : canPlaceInRadius g x y s.radius = true
  · rw [placeSprite_success_eq hcan] at hp
    have hg : g' = (let s1 := positionSprite s x y
       let g1 := occupyCells g (getCellsInRadius x y s.radius) x y s1
       let g2 := if s.kind = SpriteKind.planet then applyGravityField g1 x y 35 (1/2) else g1
       let g3 := if s.typeStr = "blackhole" then applyGravityField g2 x y 30 1 else g2
       if s.typeStr = "Asteroid" then applyGravityField g3 x y 10 (1/10) else g3) :=
      congrArg Prod.fst hp.symm
    rw [hg]
    simp only []
    rw [ite_applyGravityField_occPart, ite_applyGravityField_occPart,
      ite_applyGravityField_occPart]
  · have hcan2 : canPlaceInRadius g x y s.radius = false := Bool.eq_false_iff.mpr hcan
    have hfail : placeSprite g x y s = (g, false) := by
      unfold placeSprite
      rw [hcan2]
      rfl
    rw [hfail] at hp
    cases hp

theorem placeSprite_success_canPlace {g : Grid} {x y : Int} {s : GameSprite} {g' : Grid}
    (hp : placeSprite g x y s = (g', true)) :
    canPlaceInRadius g x y s.radius = true := by
  by_cases hcan : canPlaceInRadius g x y s.radius = true
  · exact hcan
  · have hcan2 : canPlaceInRadius g x y s.radius = false := Bool.eq_false_iff.mpr hcan
    have hfail : placeSprite g x y s = (g, false) := by
      unfold placeSprite
      rw [hcan2]
      rfl
    rw [hfail] at hp
    cases hp

theorem placeSprite_success_dims {g : Grid} {x y : Int} {s : GameSprite} {g' : Grid}
    (hp : placeSprite g x y s = (g', true)) :
    g'.width = g.width ∧ g'.height = g.height := by
  have hcan := placeSprite_success_canPlace hp
  rw [placeSprite_success_eq hcan] at hp
  have hg : g' = (let s1 := positionSprite s x y
     let g1 := occupyCells g (getCellsInRadius x y s.radius) x y s1
     let g2 := if s.kind = SpriteKind.planet then applyGravityField g1 x y 35 (1/2) else g1
     let g3 := if s.typeStr = "blackhole" then applyGravityField g2 x y 30 1 else g2
     if s.typeStr = "Asteroid" then applyGravityField g3 x y 10 (1/10) else g3) :=
    congrArg Prod.fst hp.symm
  rw [hg]
  simp only []
  constructor
  · rw [ite_applyGravityField_width, ite_applyGravityField_width,
      ite_applyGravityField_width]
    exact foldCells_width _ _ _
  · rw [ite_applyGravityField_height, ite_applyGravityField_height,
      ite_applyGravityField_height]
    exact foldCells_height _ _ _

theorem occupyCells_mem {cells : List (Int × Int)} (g : Grid) {p : Int × Int}
    (hp : p ∈ cells) (gx gy : Int) (s : GameSprite) :
    (occupyCells g cells gx gy s).cells p.1 p.2 = occupyWriter gx gy s p (g.cells p.1 p.2) :=
  foldCells_mem_idem _ (occupyWriter_idem _ _ _) g hp

theorem occupyCells_not_mem {cells : List (Int × Int)} (g : Grid) {p : Int × Int}
    (hp : p ∉ cells) (gx gy : Int) (s : GameSprite) :
    (occupyCells g cells gx gy s).cells p.1 p.2 = g.cells p.1 p.2 :=
  foldCells_not_mem _ g hp

theorem clearCells_mem {cells : List (Int × Int)} (g : Grid) {p : Int × Int}
    (hp : p ∈ cells) :
    (clearCells g cells).cells p.1 p.2 = clearWriter p (g.cells p.1 p.2) :=
  foldCells_mem_idem _ clearWriter_idem g hp

theorem clearCells_not_mem {cells : List (Int × Int)} (g : Grid) {p : Int × Int}
    (hp : p ∉ cells) :
    (clearCells g cells).cells p.1 p.2 = g.cells p.1 p.2 :=
  foldCells_not_mem _ g hp

/-- C2: for every successful placement of an entity with radius `r` at
center `(x, y)` (into a grid whose footprint cells hold no stale sprite
reference, as every reachable engine state does), every footprint cell
afterwards is occupied with owner coordinates `(x, y)`, the center cell
holds the (repositioned) entity reference, and every other footprint cell
holds no reference. -/
theorem C2_placeSprite_footprint (g g' : Grid) (x y : Int) (s : GameSprite)
    (hclean : ∀ p ∈ getCellsInRadius x y s.radius, p ≠ (x, y) →
        (g.cells p.1 p.2).sprite = none)
    (hp : placeSprite g x y s = (g', true)) :
    (∀ p ∈ getCellsInRadius x y s.radius,
        (g'.cells p.1 p.2).occupied = true
        ∧ (g'.cells p.1 p.2).centerX = some x
        ∧ (g'.cells p.1 p.2).centerY = some y)
    ∧ (g'.cells x y).sprite = some (positionSprite s x y)
    ∧ (∀ p ∈ getCellsInRadius x y s.radius, p ≠ (x, y) →
        (g'.cells p.1 p.2).sprite = none) := by
  have hcells := placeSprite_success_cells hp
  refine ⟨?_, ?_, ?_⟩
  · intro p hpm
    have h1 := hcells p.1 p.2
    rw [occupyCells_mem g hpm] at h1
    refine ⟨?_, ?_, ?_⟩
    · rw [occPart_occupied h1]
      unfold occupyWriter
      by_cases hc : p.1 = x ∧ p.2 = y <;> simp [hc]
    · rw [occPart_centerX h1]
      unfold occupyWriter
      by_cases hc : p.1 = x ∧ p.2 = y <;> simp [hc]
    · rw [occPart_centerY h1]
      unfold occupyWriter
      by_cases hc : p.1 = x ∧ p.2 = y <;> simp [hc]
  · have h1 := hcells x y
    rw [occupyCells_mem g (center_mem_getCellsInRadius x y s.radius)] at h1
    rw [occPart_sprite h1]
    unfold occupyWriter
    simp
  · intro p hpm hne
    have h1 := hcells p.1 p.2
    rw [occupyCells_mem g hpm] at h1
    rw [occPart_sprite h1]
    have hc : ¬(p.1 = x ∧ p.2 = y) := by
      intro hcon
      exact hne (Prod.ext hcon.1 hcon.2)
    unfold occupyWriter
    simp only [hc, if_false, if_neg hc]
    exact hclean p hpm hne

/-- A 0-initialized grid of the given dimensions, as built by the `Engine`
constructor. -/
def emptyGrid (w h : Nat) : Grid := ⟨w, h, fun _ _ => emptyCell⟩

/-- A launchable 1-tile building sprite, as created by the toolbar drop
handler (`createSprite("bunny", ...)`, radius 0). -/
def bunnySprite : GameSprite :=
  ⟨SpriteKind.bunny, "Building", "bunny", false, 0, 100, 100, 0, 0, 0, 0⟩

/-- A turret sprite, as created by the toolbar drop handler (radius 1). -/
def turretSprite : GameSprite :=
  ⟨SpriteKind.turret, "Turret", "turret", false, 1, 100, 100, 0, 0, 0, 0⟩

/-- The grid obtained by placing a turret at the center of an empty 3×3
grid. -/
def gridAfterTurret : Grid := (placeSprite (emptyGrid 3 3) 1 1 turretSprite).1

theorem C2_witness :
    (∀ p ∈ getCellsInRadius 1 1 turretSprite.radius, p ≠ (1, 1) →
        (((emptyGrid 3 3).cells p.1 p.2).sprite = none))
    ∧ ((∀ p ∈ getCellsInRadius 1 1 turretSprite.radius,
          ((gridAfterTurret.cells p.1 p.2).occupied = true
          ∧ (gridAfterTurret.cells p.1 p.2).centerX = some 1
          ∧ (gridAfterTurret.cells p.1 p.2).centerY = some 1))
      ∧ (gridAfterTurret.cells 1 1).sprite = some (positionSprite turretSprite 1 1)
      ∧ (∀ p ∈ getCellsInRadius 1 1 turretSprite.radius, p ≠ (1, 1) →
          (gridAfterTurret.cells p.1 p.2).sprite = none)) :=
  ⟨by decide,
   C2_placeSprite_footprint (emptyGrid 3 3) gridAfterTurret 1 1 turretSprite
     (by decide) rfl⟩

/-- C5: whenever some footprint cell of a placement request is out of
bounds or already occupied, `placeSprite` returns `false` and leaves the
grid unchanged (the failure result carries the input grid itself); in
particular a placement whose footprint crosses the grid boundary always
fails, for every radius. -/
theorem C5_placeSprite_rejects (g : Grid) (x y : Int) (s : GameSprite)
    (h : ∃ p ∈ getCellsInRadius x y s.radius,
        inBounds g p.1 p.2 = false ∨ (g.cells p.1 p.2).occupied = true) :
    placeSprite g x y s = (g, false) := by
  obtain ⟨p, hp, hbad⟩ := h
  exact placeSprite_fail hp hbad

theorem C5_witness :
    (∃ p ∈ getCellsInRadius 0 0 turretSprite.radius,
        inBounds (emptyGrid 3 3) p.1 p.2 = false
        ∨ ((emptyGrid 3 3).cells p.1 p.2).occupied = true)
    ∧ placeSprite (emptyGrid 3 3) 0 0 turretSprite = (emptyGrid 3 3, false) :=
  ⟨by decide, C5_placeSprite_rejects (emptyGrid 3 3) 0 0 turretSprite (by decide)⟩

/-- C4 counterexample: on a 2×2 grid, `removeSprite` and `moveSprite`
invoked with the out-of-bounds coordinate `(2, 0)` do not return the
failure value `false` — they throw (`TypeError`, from dereferencing the
`undefined` produced by the unguarded `this.grid[y][x]` read), refuting
the claim that all three operations return failure rather than raising. -/
theorem C4_counterexample :
    removeSprite (emptyGrid 2 2) 2 0 = Except.error "TypeError"
    ∧ moveSprite (emptyGrid 2 2) 2 0 0 0 = Except.error "TypeError"
    ∧ ∀ b : Bool, removeSprite (emptyGrid 2 2) 2 0 ≠ Except.ok (emptyGrid 2 2, b) := by
  refine ⟨rfl, rfl, ?_⟩
  intro b h
  rw [show removeSprite (emptyGrid 2 2) 2 0 = Except.error "TypeError" from rfl] at h
  cases h

/-- C4 (amended): for an out-of-bounds center (or move-source) coordinate,
`placeSprite` returns `false` without mutation, while `removeSprite` and
`moveSprite` throw a `TypeError` instead of returning `false`. -/
theorem C4_oob_result (g : Grid) (x y toX toY : Int) (s : GameSprite)
    (h : inBounds g x y = false) :
    placeSprite g x y s = (g, false)
    ∧ removeSprite g x y = Except.error "TypeError"
    ∧ moveSprite g x y toX toY = Except.error "TypeError" := by
  refine ⟨?_, ?_, ?_⟩
  · exact placeSprite_fail (center_mem_getCellsInRadius x y s.radius) (Or.inl h)
  · unfold removeSprite cellAt
    rw [h]
    rfl
  · unfold moveSprite cellAt
    rw [h]
    rfl

theorem C4_witness :
    inBounds (emptyGrid 2 2) (-1) 0 = false
    ∧ (placeSprite (emptyGrid 2 2) (-1) 0 bunnySprite = (emptyGrid 2 2, false)
      ∧ removeSprite (emptyGrid 2 2) (-1) 0 = Except.error "TypeError"
      ∧ moveSprite (emptyGrid 2 2) (-1) 0 1 1 = Except.error "TypeError") :=
  ⟨by decide, C4_oob_result (emptyGrid 2 2) (-1) 0 1 1 bunnySprite (by decide)⟩

/-- C6: a successful placement followed by removal at the same center
restores every cell's occupancy state (occupied flag, sprite reference,
owner coordinates) to its pre-placement value, provided the footprint was
clean beforehand (no stale reference or owner coordinates, as in every
reachable engine state; the occupied flags are already forced clear by the
placement's success).  Both operations compute the footprint with the same
`getCellsInRadius` call, and the gravity accumulator is the one documented
exception: it is not part of the restored state. -/
theorem C6_place_remove_roundtrip (g g' : Grid) (x y : Int) (s : GameSprite)
    (hclean : ∀ p ∈ getCellsInRadius x y s.radius,
        (g.cells p.1 p.2).sprite = none ∧ (g.cells p.1 p.2).centerX = none
        ∧ (g.cells p.1 p.2).centerY = none)
    (hp : placeSprite g x y s = (g', true)) :
    ∃ g2, removeSprite g' x y = Except.ok (g2, true)
      ∧ ∀ i j : Int,
          (g2.cells i j).occupied = (g.cells i j).occupied
          ∧ (g2.cells i j).sprite = (g.cells i j).sprite
          ∧ (g2.cells i j).centerX = (g.cells i j).centerX
          ∧ (g2.cells i j).centerY = (g.cells i j).centerY := by
  have hcan := placeSprite_success_canPlace hp
  have hdims := placeSprite_success_dims hp
  have hcells := placeSprite_success_cells hp
  have hin : inBounds g x y = true :=
    (canPlace_spec hcan (x, y) (center_mem_getCellsInRadius x y s.radius)).1
  have hin2 : inBounds g' x y = true := by
    unfold inBounds at hin ⊢
    rw [hdims.1, hdims.2]
    exact hin
  have hcent := hcells x y
  rw [occupyCells_mem g (center_mem_getCellsInRadius x y s.radius)] at hcent
  have hsprite : (g'.cells x y).sprite = some (positionSprite s x y) := by
    rw [occPart_sprite hcent]
    unfold occupyWriter
    simp
  have hrem : removeSprite g' x y =
      Except.ok (clearCells g' (getCellsInRadius x y s.radius), true) := by
    unfold removeSprite
    unfold cellAt
    rw [hin2]
    simp only [if_true]
    rw [hsprite]
    rfl
  refine ⟨clearCells g' (getCellsInRadius x y s.radius), hrem, ?_⟩
  intro i j
  by_cases hm : ((i, j) : Int × Int) ∈ getCellsInRadius x y s.radius
  · have hcc := clearCells_mem g' hm
    have hocc : (g.cells i j).occupied = false := (canPlace_spec hcan (i, j) hm).2
    have hgc := hclean (i, j) hm
    rw [hcc]
    unfold clearWriter
    exact ⟨hocc.symm, hgc.1.symm, hgc.2.1.symm, hgc.2.2.symm⟩
  · have hcc := clearCells_not_mem g' hm
    have h2 := hcells i j
    rw [occupyCells_not_mem g hm] at h2
    rw [hcc]
    exact ⟨occPart_occupied h2, occPart_sprite h2, occPart_centerX h2, occPart_centerY h2⟩

theorem C6_witness :
    (∀ p ∈ getCellsInRadius 1 1 turretSprite.radius,
        (((emptyGrid 3 3).cells p.1 p.2).sprite = none
        ∧ ((emptyGrid 3 3).cells p.1 p.2).centerX = none
        ∧ ((emptyGrid 3 3).cells p.1 p.2).centerY = none))
    ∧ ∃ g2, removeSprite gridAfterTurret 1 1 = Except.ok (g2, true)
        ∧ ∀ i j : Int,
            (g2.cells i j).occupied = ((emptyGrid 3 3).cells i j).occupied
            ∧ (g2.cells i j).sprite = ((emptyGrid 3 3).cells i j).sprite
            ∧ (g2.cells i j).centerX = ((emptyGrid 3 3).cells i j).centerX
            ∧ (g2.cells i j).centerY = ((emptyGrid 3 3).cells i j).centerY :=
  ⟨by decide,
   C6_place_remove_roundtrip (emptyGrid 3 3) gridAfterTurret 1 1 turretSprite
     (by decide) rfl⟩

theorem setOccupied_gravity (g : Grid) (cells : List (Int × Int)) (b : Bool) (i j : Int) :
    ((setOccupied g cells b).cells i j).gravity = (g.cells i j).gravity :=
  foldCells_preserve GridCell.gravity _ (fun p c => setOccupiedWriter_gravity b p c) cells g i j

theorem clearCells_gravity (g : Grid) (cells : List (Int × Int)) (i j : Int) :
    ((clearCells g cells).cells i j).gravity = (g.cells i j).gravity :=
  foldCells_preserve GridCell.gravity _ clearWriter_gravity cells g i j

theorem occupyCells_gravity (g : Grid) (cells : List (Int × Int)) (gx gy : Int)
    (s : GameSprite) (i j : Int) :
    ((occupyCells g cells gx gy s).cells i j).gravity = (g.cells i j).gravity :=
  foldCells_preserve GridCell.gravity _ (fun p c => occupyWriter_gravity gx gy s p c) cells g i j

/-- C10: `moveSprite` never modifies any cell's gravity accumulator — on
every outcome (successful move, failed move, or the thrown `TypeError`,
after which the engine grid is the unchanged input grid), every cell's
gravity equals its value before the call.  In particular moving a gravity
source leaves its field contribution centered at the old location: nothing
is re-applied at the destination or retracted from the source. -/
theorem C10_moveSprite_gravity_frame (g : Grid) (fromX fromY toX toY i j : Int) :
    (match moveSprite g fromX fromY toX toY with
      | Except.ok gb => (gb.1.cells i j).gravity
      | Except.error _ => (g.cells i j).gravity) = (g.cells i j).gravity := by
  unfold moveSprite
  cases hc : cellAt g fromX fromY with
  | none => rfl
  | some c =>
    dsimp only
    cases hs : c.sprite with
    | none => rfl
    | some s =>
      dsimp only
      rcases Bool.eq_false_or_eq_true
        (canPlaceInRadius (setOccupied g (getCellsInRadius fromX fromY s.radius) false)
          toX toY s.radius) with hcp | hcp
      · simp only [hcp, Bool.not_true, Bool.false_eq_true, if_false]
        rw [occupyCells_gravity, clearCells_gravity, setOccupied_gravity, setOccupied_gravity]
      · simp only [hcp, Bool.not_false, if_true]
        rw [setOccupied_gravity, setOccupied_gravity]

/-- C8: the trajectory prediction is a deterministic function of the grid
gravity state, the launch start position, the pointer position and the
launched sprite's position (together with the ambient square-root routine
and gravity read-out, which are fixed functions): two invocations on equal
inputs return the identical ordered point sequence — there is no hidden
randomness in the computation (initial velocity = drag delta × 0.1,
semi-implicit Euler, speed clamp 8, at most 200 steps, early stop on
leaving grid bounds). -/
theorem C8_predictTrajectory_deterministic (msqrt : ℚ → ℚ)
    (gval : List GravSrc → ℚ × ℚ) (g1 g2 : Grid)
    (sx1 sy1 mx1 my1 px1 py1 sx2 sy2 mx2 my2 px2 py2 : ℚ)
    (hg : g1 = g2) (hsx : sx1 = sx2) (hsy : sy1 = sy2) (hmx : mx1 = mx2)
    (hmy : my1 = my2) (hpx : px1 = px2) (hpy : py1 = py2) :
    predictTrajectory msqrt gval g1 sx1 sy1 mx1 my1 px1 py1
      = predictTrajectory msqrt gval g2 sx2 sy2 mx2 my2 px2 py2 := by
  rw [hg, hsx, hsy, hmx, hmy, hpx, hpy]

theorem C8_witness :
    (emptyGrid 2 2 = emptyGrid 2 2 ∧ (3 : ℚ) = 3 ∧ (4 : ℚ) = 4 ∧ (1 : ℚ) = 1
      ∧ (2 : ℚ) = 2 ∧ (96 : ℚ) = 96 ∧ (96 : ℚ) = 96)
    ∧ predictTrajectory (fun _ => 0) (fun _ => (0, 0)) (emptyGrid 2 2) 3 4 1 2 96 96
        = predictTrajectory (fun _ => 0) (fun _ => (0, 0)) (emptyGrid 2 2) 3 4 1 2 96 96 :=
  ⟨⟨rfl, rfl, rfl, rfl, rfl, rfl, rfl⟩,
   C8_predictTrajectory_deterministic (fun _ => 0) (fun _ => (0, 0))
     (emptyGrid 2 2) (emptyGrid 2 2) 3 4 1 2 96 96 3 4 1 2 96 96
     rfl rfl rfl rfl rfl rfl rfl⟩

/-- A planet sprite as `generateWorld` creates it (`createSprite("planet")`
returns a `PlanetSprite`, which is what `placeSprite`'s
`instanceof PlanetSprite` branch tests; the sprite's own footprint radius
and the constant `PLANET_RADIUS` come from the missing modules and are
irrelevant to the gravity accounting, so small values are used here). -/
def planetSprite : GameSprite :=
  ⟨SpriteKind.planet, "Player 1 Base", "Planet", true, 0, 1000, 1000, 0, 0, 0, 0⟩

set_option maxRecDepth 100000 in
/-- C3 evaluation: one `generateWorld` planet placement applies the
planet's gravity contribution TWICE to a cell in range — once inside
`placeSprite` (its `instanceof PlanetSprite` branch, engine.ts lines
1056-1060) and once more by `generateWorld` itself (line 315) — whereas
`placeSprite` alone applies it once.  The claim (and spec section 4.2:
"callers must invoke exactly once per placement") requires a single
application, so the world-generation path doubles every planet's field. -/
theorem C3_gravity_double_application :
    ((generateWorldPlanetStep (emptyGrid 5 5) 2 2 1 planetSprite).cells 0 2).gravity
      = [⟨2, 2, 35, 1/2⟩, ⟨2, 2, 35, 1/2⟩]
    ∧ (((placeSprite (emptyGrid 5 5) 2 2 planetSprite).1).cells 0 2).gravity
      = [⟨2, 2, 35, 1/2⟩] := by
  exact ⟨rfl, rfl⟩

theorem collisionHit_some {g : Grid} {px py : ℚ} {cx cy : Int} {t : GameSprite}
    (h : collisionHit g px py cx cy = some t) :
    (g.cells cx cy).sprite = some t ∧ t.immutable = true := by
  unfold collisionHit at h
  dsimp only at h
  cases hs : (g.cells cx cy).sprite with
  | none =>
    rw [hs] at h
    cases h
  | some t0 =>
    rw [hs] at h
    dsimp only at h
    split at h
    · cases h
      rename_i hcond
      exact ⟨rfl, hcond.1⟩
    · cases h

theorem mem_scanPositions {g : Grid} {p : Int × Int} (h : p ∈ scanPositions g) :
    0 ≤ p.1 ∧ p.1 < (g.width : Int) ∧ 0 ≤ p.2 ∧ p.2 < (g.height : Int) := by
  unfold scanPositions at h
  simp only [List.mem_flatMap, List.mem_map, List.mem_range] at h
  obtain ⟨j, hj, q, hq, hqp⟩ := h
  simp only [List.pure_def, List.bind_eq_flatMap, List.mem_flatMap, List.mem_range,
    List.mem_singleton] at hq
  obtain ⟨i, hi, hiq⟩ := hq
  rw [← hqp, hiq]
  exact ⟨by simp, by simpa using hi, by simp, by simpa using hj⟩

theorem findCollision_spec {g : Grid} {px py : ℚ} {tpos : Int × Int} {t : GameSprite}
    (h : findCollision g px py = some (tpos, t)) :
    (g.cells tpos.1 tpos.2).sprite = some t ∧ t.immutable = true
    ∧ 0 ≤ tpos.1 ∧ tpos.1 < (g.width : Int) ∧ 0 ≤ tpos.2 ∧ tpos.2 < (g.height : Int) := by
  unfold findCollision at h
  obtain ⟨p, hpm, hpf⟩ := List.exists_of_findSome?_eq_some h
  cases hhit : collisionHit g px py p.1 p.2 with
  | none =>
    rw [hhit] at hpf
    cases hpf
  | some t0 =>
    rw [hhit] at hpf
    cases hpf
    have h1 := collisionHit_some hhit
    have h2 := mem_scanPositions hpm
    exact ⟨h1.1, h1.2, h2.1, h2.2.1, h2.2.2.1, h2.2.2.2⟩

theorem clearOwnedCells_frame {g : Grid} {cells : List (Int × Int)} {ox oy i j : Int}
    (hne : ¬((g.cells i j).centerX = some ox ∧ (g.cells i j).centerY = some oy)) :
    (clearOwnedCells g cells ox oy).cells i j = g.cells i j := by
  by_cases hm : ((i, j) : Int × Int) ∈ cells
  · have h1 := foldCells_mem_idem _ (clearOwnedWriter_idem g.width g.height ox oy) g hm
    rw [show (clearOwnedCells g cells ox oy).cells i j
        = (foldCells (clearOwnedWriter g.width g.height ox oy) cells g).cells i j from rfl]
    rw [h1]
    unfold clearOwnedWriter
    rw [if_neg]
    intro hcon
    exact hne hcon.2
  · exact foldCells_not_mem _ g hm

theorem clearOwnedCells_clears {g : Grid} {cells : List (Int × Int)} {ox oy : Int}
    {p : Int × Int} (hm : p ∈ cells)
    (hb : 0 ≤ p.1 ∧ p.1 < (g.width : Int) ∧ 0 ≤ p.2 ∧ p.2 < (g.height : Int))
    (hown : (g.cells p.1 p.2).centerX = some ox ∧ (g.cells p.1 p.2).centerY = some oy) :
    (clearOwnedCells g cells ox oy).cells p.1 p.2
      = { g.cells p.1 p.2 with
          occupied := false
          sprite := none
          centerX := none
          centerY := none } := by
  have h1 := foldCells_mem_idem _ (clearOwnedWriter_idem g.width g.height ox oy) g hm
  rw [show (clearOwnedCells g cells ox oy).cells p.1 p.2
      = (foldCells (clearOwnedWriter g.width g.height ox oy) cells g).cells p.1 p.2 from rfl]
  rw [h1]
  unfold clearOwnedWriter
  rw [if_pos ⟨hb, hown⟩]

/-- The collision branch of `tickMove`, exposed as an equation. -/
theorem tickMove_collision_eq {gval : List GravSrc → ℚ × ℚ} {g : Grid} {x y : Int}
    {dt : ℚ} {s : GameSprite} {tpos : Int × Int} {t : GameSprite}
    (hs : (g.cells x y).sprite = some s)
    (hmv : ¬(s.vx = 0 ∧ s.vy = 0))
    (hcol : findCollision (tickG0 gval g x y dt s) (tickS1 gval g dt s).posX
        (tickS1 gval g dt s).posY = some (tpos, t)) :
    tickMove gval g x y dt =
      (let g0 := tickG0 gval g x y dt s
       let td := if t.name = "Black Hole" then (t, false) else takeDamage t 100
       let g1 :=
         if td.2 then clearOwnedCells g0 (getCellsInRadius tpos.1 tpos.2 t.radius) tpos.1 tpos.2
         else if t.name = "Black Hole" then g0
         else setCell g0 tpos.1 tpos.2 { g0.cells tpos.1 tpos.2 with sprite := some td.1 }
       let g2 := clearOwnedCells g1 (getCellsInRadius x y (tickS1 gval g dt s).radius) x y
       (g2, some (if td.2 then TickEvent.destroyed tpos.1 tpos.2
                  else TickEvent.damaged tpos.1 tpos.2 td.1.health))) := by
  unfold tickMove
  rw [hs]
  dsimp only
  rw [if_neg hmv]
  rw [hcol]

/-- A tick whose collision scan comes up empty reports no outcome. -/
theorem tickMove_no_collision_event {gval : List GravSrc → ℚ × ℚ} {g : Grid} {x y : Int}
    {dt : ℚ} {s : GameSprite}
    (hs : (g.cells x y).sprite = some s)
    (hmv : ¬(s.vx = 0 ∧ s.vy = 0))
    (hcol : findCollision (tickG0 gval g x y dt s) (tickS1 gval g dt s).posX
        (tickS1 gval g dt s).posY = none) :
    (tickMove gval g x y dt).2 = none := by
  unfold tickMove
  rw [hs]
  dsimp only
  rw [if_neg hmv]
  rw [hcol]
  dsimp only
  split
  · rfl
  · split
    · rfl
    · rfl

theorem tickMove_no_sprite {gval : List GravSrc → ℚ × ℚ} {g : Grid} {x y : Int} {dt : ℚ}
    (hs : (g.cells x y).sprite = none) :
    tickMove gval g x y dt = (g, none) := by
  unfold tickMove
  rw [hs]

theorem tickMove_static {gval : List GravSrc → ℚ × ℚ} {g : Grid} {x y : Int} {dt : ℚ}
    {s : GameSprite} (hs : (g.cells x y).sprite = some s) (hv : s.vx = 0 ∧ s.vy = 0) :
    tickMove gval g x y dt = (g, none) := by
  unfold tickMove
  rw [hs]
  dsimp only
  rw [if_pos hv]

/-- Collision outcome equation when the target is a black hole: no damage,
no target clearing, only the mover's owner-guarded footprint is cleared. -/
theorem tickMove_eq_blackhole {gval : List GravSrc → ℚ × ℚ} {g : Grid} {x y : Int}
    {dt : ℚ} {s t : GameSprite} {tpos : Int × Int}
    (hs : (g.cells x y).sprite = some s)
    (hmv : ¬(s.vx = 0 ∧ s.vy = 0))
    (hcol : findCollision (tickG0 gval g x y dt s) (tickS1 gval g dt s).posX
        (tickS1 gval g dt s).posY = some (tpos, t))
    (hbh : t.name = "Black Hole") :
    tickMove gval g x y dt
      = (clearOwnedCells (tickG0 gval g x y dt s)
          (getCellsInRadius x y (tickS1 gval g dt s).radius) x y,
         some (TickEvent.damaged tpos.1 tpos.2 t.health)) := by
  rw [tickMove_collision_eq hs hmv hcol]
  simp only [hbh, reduceIte, Bool.false_eq_true, if_false]

/-- Collision outcome equation when the target is damageable and the 100
damage brings its health to zero or below: the target's owner-guarded
footprint is cleared, then the mover's. -/
theorem tickMove_eq_destroyed {gval : List GravSrc → ℚ × ℚ} {g : Grid} {x y : Int}
    {dt : ℚ} {s t : GameSprite} {tpos : Int × Int}
    (hs : (g.cells x y).sprite = some s)
    (hmv : ¬(s.vx = 0 ∧ s.vy = 0))
    (hcol : findCollision (tickG0 gval g x y dt s) (tickS1 gval g dt s).posX
        (tickS1 gval g dt s).posY = some (tpos, t))
    (hbh : ¬(t.name = "Black Hole")) (hdmg : t.health - 100 ≤ 0) :
    tickMove gval g x y dt
      = (clearOwnedCells
          (clearOwnedCells (tickG0 gval g x y dt s)
            (getCellsInRadius tpos.1 tpos.2 t.radius) tpos.1 tpos.2)
          (getCellsInRadius x y (tickS1 gval g dt s).radius) x y,
         some (TickEvent.destroyed tpos.1 tpos.2)) := by
  rw [tickMove_collision_eq hs hmv hcol]
  have h2 : (takeDamage t 100).2 = true := by
    simp only [takeDamage]
    exact decide_eq_true hdmg
  simp only [if_neg hbh, h2, if_true, reduceIte]

/-- Collision outcome equation when the target is damageable and survives:
its health is reduced by exactly 100 in its center cell, and only the
mover's owner-guarded footprint is cleared. -/
theorem tickMove_eq_survived {gval : List GravSrc → ℚ × ℚ} {g : Grid} {x y : Int}
    {dt : ℚ} {s t : GameSprite} {tpos : Int × Int}
    (hs : (g.cells x y).sprite = some s)
    (hmv : ¬(s.vx = 0 ∧ s.vy = 0))
    (hcol : findCollision (tickG0 gval g x y dt s) (tickS1 gval g dt s).posX
        (tickS1 gval g dt s).posY = some (tpos, t))
    (hbh : ¬(t.name = "Black Hole")) (hdmg : ¬(t.health - 100 ≤ 0)) :
    tickMove gval g x y dt
      = (clearOwnedCells
          (setCell (tickG0 gval g x y dt s) tpos.1 tpos.2
            { (tickG0 gval g x y dt s).cells tpos.1 tpos.2 with
              sprite := some { t with health := t.health - 100 } })
          (getCellsInRadius x y (tickS1 gval g dt s).radius) x y,
         some (TickEvent.damaged tpos.1 tpos.2 (t.health - 100))) := by
  rw [tickMove_collision_eq hs hmv hcol]
  have h2 : (takeDamage t 100).2 = false := by
    simp only [takeDamage]
    exact decide_eq_false hdmg
  have h1 : (takeDamage t 100).1 = { t with health := t.health - 100 } := rfl
  simp only [if_neg hbh, h2, h1, Bool.false_eq_true, if_false, reduceIte]

theorem tickG0_cells_ne {gval : List GravSrc → ℚ × ℚ} {g : Grid} {x y : Int} {dt : ℚ}
    {s : GameSprite} {i j : Int} (h : ¬(i = x ∧ j = y)) :
    (tickG0 gval g x y dt s).cells i j = g.cells i j := by
  unfold tickG0
  rw [setCell_cells, if_neg h]

theorem tickG0_cells_self (gval : List GravSrc → ℚ × ℚ) (g : Grid) (x y : Int) (dt : ℚ)
    (s : GameSprite) :
    (tickG0 gval g x y dt s).cells x y
      = { g.cells x y with sprite := some (tickS1 gval g dt s) } := by
  unfold tickG0
  rw [setCell_cells, if_pos ⟨rfl, rfl⟩]

theorem tickS1_immutable (gval : List GravSrc → ℚ × ℚ) (g : Grid) (dt : ℚ)
    (s : GameSprite) : (tickS1 gval g dt s).immutable = s.immutable := rfl

theorem tickS1_radius (gval : List GravSrc → ℚ × ℚ) (g : Grid) (dt : ℚ)
    (s : GameSprite) : (tickS1 gval g dt s).radius = s.radius := rfl

/-- A collision target found by the scan is never the moving sprite's own
(non-immutable) record, so its center differs from the mover's cell. -/
theorem collision_target_ne {gval : List GravSrc → ℚ × ℚ} {g : Grid} {x y : Int}
    {dt : ℚ} {s t : GameSprite} {tpos : Int × Int}
    (hsim : s.immutable = false)
    (hcol : findCollision (tickG0 gval g x y dt s) (tickS1 gval g dt s).posX
        (tickS1 gval g dt s).posY = some (tpos, t)) :
    tpos ≠ ((x, y) : Int × Int) := by
  intro hcon
  have hspec := findCollision_spec hcol
  rw [hcon] at hspec
  rw [show ((x, y) : Int × Int).1 = x from rfl, show ((x, y) : Int × Int).2 = y from rfl,
    tickG0_cells_self] at hspec
  have ht : some (tickS1 gval g dt s) = some t := hspec.1
  have ht2 : tickS1 gval g dt s = t := Option.some.inj ht
  have himm : t.immutable = false := by
    rw [← ht2, tickS1_immutable]
    exact hsim
  rw [himm] at hspec
  cases hspec.2.1

/-- C9: the tick's collision path clears only cells whose stored owner
coordinates equal the cleared entity's center (the destroyed target's
center or the consumed mover's cell).  Every cell owned by a different
entity — even one lying inside a cleared radius — keeps its occupied flag,
owner coordinates and sprite reference (indeed its entire contents)
unchanged. -/
theorem C9_collision_clears_only_owner (gval : List GravSrc → ℚ × ℚ) (g : Grid)
    (x y : Int) (dt : ℚ) (s t : GameSprite) (tpos : Int × Int) (i j ox oy : Int)
    (hs : (g.cells x y).sprite = some s)
    (hmv : ¬(s.vx = 0 ∧ s.vy = 0))
    (hcol : findCollision (tickG0 gval g x y dt s) (tickS1 gval g dt s).posX
        (tickS1 gval g dt s).posY = some (tpos, t))
    (hcell : (g.cells i j).centerX = some ox ∧ (g.cells i j).centerY = some oy)
    (hne1 : ((ox, oy) : Int × Int) ≠ tpos)
    (hne2 : ((ox, oy) : Int × Int) ≠ (x, y))
    (hij1 : ((i, j) : Int × Int) ≠ (x, y))
    (hij2 : ((i, j) : Int × Int) ≠ tpos) :
    (tickMove gval g x y dt).1.cells i j = g.cells i j := by
  have hg0 : (tickG0 gval g x y dt s).cells i j = g.cells i j := by
    apply tickG0_cells_ne
    intro hc
    exact hij1 (Prod.ext hc.1 hc.2)
  have hno_m : ∀ c : GridCell, c = g.cells i j →
      ¬(c.centerX = some x ∧ c.centerY = some y) := by
    intro c hc hcon
    rw [hc] at hcon
    apply hne2
    have h1 : ox = x := Option.some.inj (hcell.1.symm.trans hcon.1)
    have h2 : oy = y := Option.some.inj (hcell.2.symm.trans hcon.2)
    exact Prod.ext h1 h2
  have hno_t : ∀ c : GridCell, c = g.cells i j →
      ¬(c.centerX = some tpos.1 ∧ c.centerY = some tpos.2) := by
    intro c hc hcon
    rw [hc] at hcon
    apply hne1
    have h1 : ox = tpos.1 := Option.some.inj (hcell.1.symm.trans hcon.1)
    have h2 : oy = tpos.2 := Option.some.inj (hcell.2.symm.trans hcon.2)
    exact Prod.ext h1 h2
  by_cases hbh : t.name = "Black Hole"
  · rw [tickMove_eq_blackhole hs hmv hcol hbh]
    exact (clearOwnedCells_frame (hno_m _ hg0)).trans hg0
  · by_cases hdmg : t.health - 100 ≤ 0
    · rw [tickMove_eq_destroyed hs hmv hcol hbh hdmg]
      have hin : (clearOwnedCells (tickG0 gval g x y dt s)
          (getCellsInRadius tpos.1 tpos.2 t.radius) tpos.1 tpos.2).cells i j
          = g.cells i j :=
        (clearOwnedCells_frame (hno_t _ hg0)).trans hg0
      exact (clearOwnedCells_frame (hno_m _ hin)).trans hin
    · rw [tickMove_eq_survived hs hmv hcol hbh hdmg]
      have hin : (setCell (tickG0 gval g x y dt s) tpos.1 tpos.2
          { (tickG0 gval g x y dt s).cells tpos.1 tpos.2 with
            sprite := some { t with health := t.health - 100 } }).cells i j
          = g.cells i j := by
        rw [setCell_cells, if_neg]
        · exact hg0
        · intro hc
          exact hij2 (Prod.ext hc.1 hc.2)
      exact (clearOwnedCells_frame (hno_m _ hin)).trans hin

theorem clearOwnedCells_width (g : Grid) (cells : List (Int × Int)) (ox oy : Int) :
    (clearOwnedCells g cells ox oy).width = g.width := foldCells_width _ _ _

theorem clearOwnedCells_height (g : Grid) (cells : List (Int × Int)) (ox oy : Int) :
    (clearOwnedCells g cells ox oy).height = g.height := foldCells_height _ _ _

theorem inBounds_unfold {g : Grid} {x y : Int} (h : inBounds g x y = true) :
    0 ≤ x ∧ x < (g.width : Int) ∧ 0 ≤ y ∧ y < (g.height : Int) := by
  unfold inBounds at h
  simp only [Bool.and_eq_true, decide_eq_true_eq] at h
  exact ⟨h.1.1.1, h.1.1.2, h.1.2, h.2⟩

/-- C1 (amended): whenever the tick's collision scan finds a target for the
moving sprite registered at `(x, y)` (an immutable sprite within its
radius-in-tiles × tile-size of the moved position, the first one in
row-major scan order), the tick reports exactly one damaged-or-destroyed
outcome for that target; 100 damage is applied unless the target is a
black hole, whose health is unchanged; the target is removed from the grid
exactly when damage was applied and brought its health to 0 or below; and
the moving entity's cell is cleared unconditionally, whether or not the
target survived. -/
theorem C1_collision_resolution (gval : List GravSrc → ℚ × ℚ) (g : Grid)
    (x y : Int) (dt : ℚ) (s t : GameSprite) (tpos : Int × Int)
    (hs : (g.cells x y).sprite = some s)
    (hmv : ¬(s.vx = 0 ∧ s.vy = 0))
    (hsim : s.immutable = false)
    (hxyb : inBounds g x y = true)
    (hown : (g.cells x y).centerX = some x ∧ (g.cells x y).centerY = some y)
    (htown : (g.cells tpos.1 tpos.2).centerX = some tpos.1
      ∧ (g.cells tpos.1 tpos.2).centerY = some tpos.2)
    (hcol : findCollision (tickG0 gval g x y dt s) (tickS1 gval g dt s).posX
        (tickS1 gval g dt s).posY = some (tpos, t)) :
    (tickMove gval g x y dt).2
      = some (if ¬(t.name = "Black Hole") ∧ t.health - 100 ≤ 0
              then TickEvent.destroyed tpos.1 tpos.2
              else TickEvent.damaged tpos.1 tpos.2
                (if t.name = "Black Hole" then t.health else t.health - 100))
    ∧ ((tickMove gval g x y dt).1.cells x y).occupied = false
    ∧ ((tickMove gval g x y dt).1.cells x y).sprite = none
    ∧ (t.name = "Black Hole" →
        (tickMove gval g x y dt).1.cells tpos.1 tpos.2 = g.cells tpos.1 tpos.2)
    ∧ (¬(t.name = "Black Hole") → t.health - 100 ≤ 0 →
        ((tickMove gval g x y dt).1.cells tpos.1 tpos.2).occupied = false
        ∧ ((tickMove gval g x y dt).1.cells tpos.1 tpos.2).sprite = none)
    ∧ (¬(t.name = "Black Hole") → ¬(t.health - 100 ≤ 0) →
        ((tickMove gval g x y dt).1.cells tpos.1 tpos.2).sprite
          = some { t with health := t.health - 100 }
        ∧ ((tickMove gval g x y dt).1.cells tpos.1 tpos.2).occupied
          = (g.cells tpos.1 tpos.2).occupied) := by
  have htpos_ne : tpos ≠ ((x, y) : Int × Int) := collision_target_ne hsim hcol
  have hg0t : (tickG0 gval g x y dt s).cells tpos.1 tpos.2 = g.cells tpos.1 tpos.2 := by
    apply tickG0_cells_ne
    intro hc
    exact htpos_ne (Prod.ext hc.1 hc.2)
  have hg0xy := tickG0_cells_self gval g x y dt s
  have hg0ownx : ((tickG0 gval g x y dt s).cells x y).centerX = some x := by
    rw [hg0xy]
    exact hown.1
  have hg0owny : ((tickG0 gval g x y dt s).cells x y).centerY = some y := by
    rw [hg0xy]
    exact hown.2
  have hxb := inBounds_unfold hxyb
  have hcenter_mem := center_mem_getCellsInRadius x y (tickS1 gval g dt s).radius
  have hno_t_at_m : ¬(((tickG0 gval g x y dt s).cells x y).centerX = some tpos.1
      ∧ ((tickG0 gval g x y dt s).cells x y).centerY = some tpos.2) := by
    intro hcon
    apply htpos_ne
    have h1 : tpos.1 = x := (Option.some.inj (hg0ownx.symm.trans hcon.1)).symm
    have h2 : tpos.2 = y := (Option.some.inj (hg0owny.symm.trans hcon.2)).symm
    exact Prod.ext h1 h2
  have hno_m_at_t : ∀ c : GridCell, c = g.cells tpos.1 tpos.2 →
      ¬(c.centerX = some x ∧ c.centerY = some y) := by
    intro c hc hcon
    rw [hc] at hcon
    apply htpos_ne
    have h1 : tpos.1 = x := Option.some.inj (htown.1.symm.trans hcon.1)
    have h2 : tpos.2 = y := Option.some.inj (htown.2.symm.trans hcon.2)
    exact Prod.ext h1 h2
  by_cases hbh : t.name = "Black Hole"
  · rw [tickMove_eq_blackhole hs hmv hcol hbh]
    dsimp only
    have hclear : (clearOwnedCells (tickG0 gval g x y dt s)
        (getCellsInRadius x y (tickS1 gval g dt s).radius) x y).cells x y
        = { (tickG0 gval g x y dt s).cells x y with
            occupied := false
            sprite := none
            centerX := none
            centerY := none } :=
      clearOwnedCells_clears hcenter_mem ⟨hxb.1, hxb.2.1, hxb.2.2.1, hxb.2.2.2⟩
        ⟨hg0ownx, hg0owny⟩
    refine ⟨?_, ?_, ?_, ?_, ?_, ?_⟩
    · rw [if_neg (by tauto), if_pos hbh]
    · rw [hclear]
    · rw [hclear]
    · intro _
      exact (clearOwnedCells_frame (hno_m_at_t _ hg0t)).trans hg0t
    · intro hb _
      exact absurd hbh hb
    · intro hb _
      exact absurd hbh hb
  · by_cases hdmg : t.health - 100 ≤ 0
    · rw [tickMove_eq_destroyed hs hmv hcol hbh hdmg]
      dsimp only
      have hspec := findCollision_spec hcol
      have htb : 0 ≤ tpos.1 ∧ tpos.1 < (g.width : Int) ∧ 0 ≤ tpos.2
          ∧ tpos.2 < (g.height : Int) := hspec.2.2
      have hinner_t : (clearOwnedCells (tickG0 gval g x y dt s)
          (getCellsInRadius tpos.1 tpos.2 t.radius) tpos.1 tpos.2).cells tpos.1 tpos.2
          = { (tickG0 gval g x y dt s).cells tpos.1 tpos.2 with
              occupied := false
              sprite := none
              centerX := none
              centerY := none } :=
        clearOwnedCells_clears (center_mem_getCellsInRadius tpos.1 tpos.2 t.radius)
          htb (by rw [hg0t]; exact htown)
      have hinner_m : (clearOwnedCells (tickG0 gval g x y dt s)
          (getCellsInRadius tpos.1 tpos.2 t.radius) tpos.1 tpos.2).cells x y
          = (tickG0 gval g x y dt s).cells x y :=
        clearOwnedCells_frame hno_t_at_m
      have houter_m : (clearOwnedCells (clearOwnedCells (tickG0 gval g x y dt s)
          (getCellsInRadius tpos.1 tpos.2 t.radius) tpos.1 tpos.2)
          (getCellsInRadius x y (tickS1 gval g dt s).radius) x y).cells x y
          = { (clearOwnedCells (tickG0 gval g x y dt s)
              (getCellsInRadius tpos.1 tpos.2 t.radius) tpos.1 tpos.2).cells x y with
              occupied := false
              sprite := none
              centerX := none
              centerY := none } := by
        apply clearOwnedCells_clears hcenter_mem
        · rw [clearOwnedCells_width, clearOwnedCells_height]
          exact ⟨hxb.1, hxb.2.1, hxb.2.2.1, hxb.2.2.2⟩
        · rw [hinner_m]
          exact ⟨hg0ownx, hg0owny⟩
      have houter_t : (clearOwnedCells (clearOwnedCells (tickG0 gval g x y dt s)
          (getCellsInRadius tpos.1 tpos.2 t.radius) tpos.1 tpos.2)
          (getCellsInRadius x y (tickS1 gval g dt s).radius) x y).cells tpos.1 tpos.2
          = (clearOwnedCells (tickG0 gval g x y dt s)
              (getCellsInRadius tpos.1 tpos.2 t.radius) tpos.1 tpos.2).cells tpos.1 tpos.2 := by
        apply clearOwnedCells_frame
        rw [hinner_t]
        intro hcon
        cases hcon.1
      refine ⟨?_, ?_, ?_, ?_, ?_, ?_⟩
      · rw [if_pos ⟨hbh, hdmg⟩]
      · rw [houter_m]
      · rw [houter_m]
      · intro hb
        exact absurd hb hbh
      · intro _ _
        rw [houter_t, hinner_t]
        exact ⟨rfl, rfl⟩
      · intro _ hd
        exact absurd hdmg hd
    · rw [tickMove_eq_survived hs hmv hcol hbh hdmg]
      dsimp only
      have hinner_m : (setCell (tickG0 gval g x y dt s) tpos.1 tpos.2
          { (tickG0 gval g x y dt s).cells tpos.1 tpos.2 with
            sprite := some { t with health := t.health - 100 } }).cells x y
          = (tickG0 gval g x y dt s).cells x y := by
        rw [setCell_cells, if_neg]
        intro hc
        exact htpos_ne (Prod.ext hc.1.symm hc.2.symm)
      have hinner_t : (setCell (tickG0 gval g x y dt s) tpos.1 tpos.2
          { (tickG0 gval g x y dt s).cells tpos.1 tpos.2 with
            sprite := some { t with health := t.health - 100 } }).cells tpos.1 tpos.2
          = { (tickG0 gval g x y dt s).cells tpos.1 tpos.2 with
              sprite := some { t with health := t.health - 100 } } := by
        rw [setCell_cells, if_pos ⟨rfl, rfl⟩]
      have houter_m : (clearOwnedCells (setCell (tickG0 gval g x y dt s) tpos.1 tpos.2
          { (tickG0 gval g x y dt s).cells tpos.1 tpos.2 with
            sprite := some { t with health := t.health - 100 } })
          (getCellsInRadius x y (tickS1 gval g dt s).radius) x y).cells x y
          = { (setCell (tickG0 gval g x y dt s) tpos.1 tpos.2
              { (tickG0 gval g x y dt s).cells tpos.1 tpos.2 with
                sprite := some { t with health := t.health - 100 } }).cells x y with
              occupied := false
              sprite := none
              centerX := none
              centerY := none } := by
        apply clearOwnedCells_clears hcenter_mem
        · exact ⟨hxb.1, hxb.2.1, hxb.2.2.1, hxb.2.2.2⟩
        · rw [hinner_m]
          exact ⟨hg0ownx, hg0owny⟩
      have houter_t : (clearOwnedCells (setCell (tickG0 gval g x y dt s) tpos.1 tpos.2
          { (tickG0 gval g x y dt s).cells tpos.1 tpos.2 with
            sprite := some { t with health := t.health - 100 } })
          (getCellsInRadius x y (tickS1 gval g dt s).radius) x y).cells tpos.1 tpos.2
          = (setCell (tickG0 gval g x y dt s) tpos.1 tpos.2
              { (tickG0 gval g x y dt s).cells tpos.1 tpos.2 with
                sprite := some { t with health := t.health - 100 } }).cells tpos.1 tpos.2 := by
        apply clearOwnedCells_frame
        rw [hinner_t]
        intro hcon
        apply hno_m_at_t (g.cells tpos.1 tpos.2) rfl
        rw [← hg0t]
        exact hcon
      refine ⟨?_, ?_, ?_, ?_, ?_, ?_⟩
      · rw [if_neg (by tauto), if_neg hbh]
      · rw [houter_m]
      · rw [houter_m]
      · intro hb
        exact absurd hb hbh
      · intro _ hd
        exact absurd hd hdmg
      · intro _ _
        rw [houter_t, hinner_t]
        constructor
        · rfl
        · rw [hg0t]

theorem findSome?_step_none {α β : Type} (f : α → Option β) (a : α) (l : List α)
    (h : f a = none) : (a :: l).findSome? f = l.findSome? f := by
  rw [List.findSome?_cons, h]

theorem findSome?_step_some {α β : Type} (f : α → Option β) (a : α) (l : List α)
    {b : β} (h : f a = some b) : (a :: l).findSome? f = some b := by
  rw [List.findSome?_cons, h]

/-- The zero gravity read-out (an empty field everywhere). -/
def gvalZero : List GravSrc → ℚ × ℚ := fun _ => (0, 0)

theorem tickS1_gvalZero (G : Grid) (dt : ℚ) (m : GameSprite) :
    tickS1 gvalZero G dt m = spriteUpdate m dt 0 0 := by
  unfold tickS1
  dsimp only
  have h1 : ∀ l, gvalZero l = ((0 : ℚ), (0 : ℚ)) := fun _ => rfl
  rw [h1, ite_self]

/-- The row-major scan order of a 5×5 grid. -/
def scan5 : List (Int × Int) :=
  [(0, 0), (1, 0), (2, 0), (3, 0), (4, 0),
   (0, 1), (1, 1), (2, 1), (3, 1), (4, 1),
   (0, 2), (1, 2), (2, 2), (3, 2), (4, 2),
   (0, 3), (1, 3), (2, 3), (3, 3), (4, 3),
   (0, 4), (1, 4), (2, 4), (3, 4), (4, 4)]

/-- A projectile launched rightward from cell `(0, 2)` with velocity
`(65, 0)`, as the launch system produces (`vx = dx * 0.1`). -/
def moverA : GameSprite :=
  ⟨SpriteKind.bunny, "Building", "bunny", false, 0, 100, 100, 32, 160, 65, 0⟩

/-- Sprite `moverA` after one zero-gravity update step: position `(97, 160)`. -/
def moverAup : GameSprite :=
  ⟨SpriteKind.bunny, "Building", "bunny", false, 0, 100, 100, 97, 160, 65, 0⟩

/-- A projectile launched leftward from cell `(4, 2)`. -/
def moverB : GameSprite :=
  ⟨SpriteKind.bunny, "Building", "bunny", false, 0, 100, 100, 288, 160, -65, 0⟩

/-- Sprite `moverB` after one zero-gravity update step: position `(223, 160)`. -/
def moverBup : GameSprite :=
  ⟨SpriteKind.bunny, "Building", "bunny", false, 0, 100, 100, 223, 160, -65, 0⟩

/-- An immutable planet of radius 1 tile at cell `(2, 2)`. -/
def planetT : GameSprite :=
  ⟨SpriteKind.planet, "Planet", "Planet", true, 1, 100, 100, 160, 160, 0, 0⟩

/-- An immutable black hole of radius 1 tile at cell `(2, 2)` (health 0:
black holes carry no meaningful health). -/
def bhT : GameSprite :=
  ⟨SpriteKind.blackhole, "Black Hole", "Black Hole", true, 1, 0, 0, 160, 160, 0, 0⟩

/-- An immutable asteroid at cell `(3, 3)`. -/
def asteroidT : GameSprite :=
  ⟨SpriteKind.asteroid, "Asteroid", "Asteroid", true, 0, 200, 200, 224, 224, 0, 0⟩

/-- The center cell of a placed sprite. -/
def centerCell (s : GameSprite) (cx cy : Int) : GridCell :=
  ⟨[], some s, true, some cx, some cy⟩

/-- A non-center footprint cell owned by `(cx, cy)`. -/
def footCell (cx cy : Int) : GridCell :=
  ⟨[], none, true, some cx, some cy⟩

/-- Base scenario contents: `moverA` at `(0, 2)` и a radius-1 immutable
target centered at `(2, 2)` with its footprint cells. -/
def baseCells (target : GameSprite) : Int → Int → GridCell := fun x y =>
  if x = 0 ∧ y = 2 then centerCell moverA 0 2
  else if x = 2 ∧ y = 2 then centerCell target 2 2
  else if (x = 2 ∧ y = 1) ∨ (x = 1 ∧ y = 2) ∨ (x = 3 ∧ y = 2) ∨ (x = 2 ∧ y = 3) then
    footCell 2 2
  else emptyCell

/-- A 5×5 scenario grid with a planet target. -/
def gridPlanet : Grid := ⟨5, 5, baseCells planetT⟩

/-- A 5×5 scenario grid with a black-hole target. -/
def gridBH : Grid := ⟨5, 5, baseCells bhT⟩

/-- One tick whose reported outcome refers to the cell of a stationary
black hole leaves that cell untouched and never reports `destroyed`. -/
theorem tickMove_blackhole_step (gval : List GravSrc → ℚ × ℚ) (g : Grid) (x y : Int)
    (dt : ℚ) (bx byy : Int) (bh : GameSprite)
    (hb : (g.cells bx byy).sprite = some bh)
    (hname : bh.name = "Black Hole")
    (hv : bh.vx = 0 ∧ bh.vy = 0)
    (hown : (g.cells bx byy).centerX = some bx ∧ (g.cells bx byy).centerY = some byy)
    (hev : targetsCell (bx, byy) (tickMove gval g x y dt).2 = true) :
    (tickMove gval g x y dt).1.cells bx byy = g.cells bx byy
    ∧ (tickMove gval g x y dt).2 ≠ some (TickEvent.destroyed bx byy) := by
  cases hsx : (g.cells x y).sprite with
  | none =>
    rw [tickMove_no_sprite hsx] at hev
    simp [targetsCell] at hev
  | some s =>
    by_cases hmv : s.vx = 0 ∧ s.vy = 0
    · rw [tickMove_static hsx hmv] at hev
      simp [targetsCell] at hev
    · cases hcol : findCollision (tickG0 gval g x y dt s) (tickS1 gval g dt s).posX
          (tickS1 gval g dt s).posY with
      | none =>
        rw [tickMove_no_collision_event hsx hmv hcol] at hev
        simp [targetsCell] at hev
      | some pt =>
        obtain ⟨tpos, t⟩ := pt
        have hxyne : ¬(x = bx ∧ y = byy) := by
          intro hc
          rw [hc.1, hc.2] at hsx
          have hsb : s = bh := Option.some.inj (hsx.symm.trans hb)
          apply hmv
          rw [hsb]
          exact hv
        have heq := tickMove_collision_eq hsx hmv hcol
        have het : ∀ (c : Prop) (inst : Decidable c) (a b hh : Int),
            eventTarget (if c then TickEvent.destroyed a b else TickEvent.damaged a b hh)
              = (a, b) := by
          intro c inst a b hh
          split <;> rfl
        have htp : tpos = ((bx, byy) : Int × Int) := by
          rw [heq] at hev
          dsimp only at hev
          unfold targetsCell at hev
          dsimp only at hev
          rw [het] at hev
          simp only [beq_iff_eq, Prod.mk.injEq] at hev
          exact Prod.ext hev.1 hev.2
        subst htp
        have hg0b : (tickG0 gval g x y dt s).cells bx byy = g.cells bx byy := by
          apply tickG0_cells_ne
          intro hc
          exact hxyne ⟨hc.1.symm, hc.2.symm⟩
        have hspec := findCollision_spec hcol
        have htb : t = bh := by
          have h1 : (tickG0 gval g x y dt s).cells bx byy
              = g.cells bx byy := hg0b
          have h2 := hspec.1
          rw [show (((bx, byy) : Int × Int).1) = bx from rfl,
            show (((bx, byy) : Int × Int).2) = byy from rfl, h1, hb] at h2
          exact (Option.some.inj h2).symm
        have heqbh := tickMove_eq_blackhole hsx hmv hcol (by rw [htb]; exact hname)
        constructor
        · rw [heqbh]
          dsimp only
          refine (clearOwnedCells_frame ?_).trans hg0b
          rw [hg0b]
          intro hcon
          apply hxyne
          have h1 : bx = x := Option.some.inj (hown.1.symm.trans hcon.1)
          have h2 : byy = y := Option.some.inj (hown.2.symm.trans hcon.2)
          exact ⟨h1.symm, h2.symm⟩
        · rw [heqbh]
          dsimp only
          intro hcon
          simp at hcon

/-- C7: over any sequence of ticks in which every reported outcome targets
the cell of a stationary black hole (repeated collisions against it), the
black hole's cell — its presence, its sprite record, and hence its health —
is unchanged at the end, and no tick ever reports a `destroyed` outcome for
it.  The 100-damage application is skipped whenever the collision target is
a black hole. -/
theorem C7_blackhole_immunity (g : Grid) (specs : List TickSpec) (bx byy : Int)
    (bh : GameSprite)
    (hb : (g.cells bx byy).sprite = some bh)
    (hname : bh.name = "Black Hole")
    (hv : bh.vx = 0 ∧ bh.vy = 0)
    (hown : (g.cells bx byy).centerX = some bx ∧ (g.cells bx byy).centerY = some byy)
    (hevents : ∀ ev ∈ (runTicks g specs).2, targetsCell (bx, byy) ev = true) :
    (runTicks g specs).1.cells bx byy = g.cells bx byy
    ∧ ∀ ev ∈ (runTicks g specs).2, ev ≠ some (TickEvent.destroyed bx byy) := by
  induction specs generalizing g with
  | nil =>
    refine ⟨rfl, ?_⟩
    intro ev hm
    cases hm
  | cons sp rest ih =>
    have hsplit : runTicks g (sp :: rest)
        = ((runTicks (tickMove sp.gval g sp.x sp.y sp.dt).1 rest).1,
           (tickMove sp.gval g sp.x sp.y sp.dt).2
             :: (runTicks (tickMove sp.gval g sp.x sp.y sp.dt).1 rest).2) := rfl
    have hev1 : targetsCell (bx, byy) (tickMove sp.gval g sp.x sp.y sp.dt).2 = true := by
      apply hevents
      rw [hsplit]
      exact List.mem_cons_self _ _
    have hstep := tickMove_blackhole_step sp.gval g sp.x sp.y sp.dt bx byy bh
      hb hname hv hown hev1
    have hb2 : ((tickMove sp.gval g sp.x sp.y sp.dt).1.cells bx byy).sprite = some bh := by
      rw [hstep.1]
      exact hb
    have hown2 : ((tickMove sp.gval g sp.x sp.y sp.dt).1.cells bx byy).centerX = some bx
        ∧ ((tickMove sp.gval g sp.x sp.y sp.dt).1.cells bx byy).centerY = some byy := by
      rw [hstep.1]
      exact hown
    have hevrest : ∀ ev ∈ (runTicks (tickMove sp.gval g sp.x sp.y sp.dt).1 rest).2,
        targetsCell (bx, byy) ev = true := by
      intro ev hm
      apply hevents
      rw [hsplit]
      exact List.mem_cons_of_mem _ hm
    have hrest := ih (tickMove sp.gval g sp.x sp.y sp.dt).1 hb2 hown2 hevrest
    constructor
    · rw [hsplit]
      dsimp only
      rw [hrest.1, hstep.1]
    · intro ev hm
      rw [hsplit] at hm
      rcases List.mem_cons.mp hm with hm1 | hm2
      · rw [hm1]
        exact hstep.2
      · exact hrest.2 ev hm2

theorem spriteUpdate_moverA : spriteUpdate moverA 1 0 0 = moverAup := by
  norm_num [spriteUpdate, moverA, moverAup]

theorem spriteUpdate_moverB : spriteUpdate moverB 1 0 0 = moverBup := by
  norm_num [spriteUpdate, moverB, moverBup]

theorem hhit_planet :
    collisionHit (tickG0 gvalZero gridPlanet 0 2 1 moverA) moverAup.posX moverAup.posY 2 2
      = some planetT := by
  unfold collisionHit
  dsimp only
  rw [show ((tickG0 gvalZero gridPlanet 0 2 1 moverA).cells 2 2).sprite = some planetT from rfl]
  dsimp only
  rw [if_pos]
  refine ⟨rfl, Or.inr ⟨rfl, rfl⟩, ?_⟩
  norm_num [moverAup, planetT, TILE_SIZE]

theorem hcol_planet :
    findCollision (tickG0 gvalZero gridPlanet 0 2 1 moverA)
      (tickS1 gvalZero gridPlanet 1 moverA).posX
      (tickS1 gvalZero gridPlanet 1 moverA).posY
      = some ((2, 2), planetT) := by
  rw [tickS1_gvalZero, spriteUpdate_moverA]
  unfold findCollision
  rw [show scanPositions (tickG0 gvalZero gridPlanet 0 2 1 moverA) = scan5 from rfl]
  unfold scan5
  iterate 12 rw [findSome?_step_none _ _ _ rfl]
  apply findSome?_step_some
  show (collisionHit _ _ _ 2 2).map _ = _
  rw [hhit_planet]
  rfl

theorem hhit_bh :
    collisionHit (tickG0 gvalZero gridBH 0 2 1 moverA) moverAup.posX moverAup.posY 2 2
      = some bhT := by
  unfold collisionHit
  dsimp only
  rw [show ((tickG0 gvalZero gridBH 0 2 1 moverA).cells 2 2).sprite = some bhT from rfl]
  dsimp only
  rw [if_pos]
  refine ⟨rfl, Or.inr ⟨rfl, rfl⟩, ?_⟩
  norm_num [moverAup, bhT, TILE_SIZE]

theorem hcol_bh :
    findCollision (tickG0 gvalZero gridBH 0 2 1 moverA)
      (tickS1 gvalZero gridBH 1 moverA).posX
      (tickS1 gvalZero gridBH 1 moverA).posY
      = some ((2, 2), bhT) := by
  rw [tickS1_gvalZero, spriteUpdate_moverA]
  unfold findCollision
  rw [show scanPositions (tickG0 gvalZero gridBH 0 2 1 moverA) = scan5 from rfl]
  unfold scan5
  iterate 12 rw [findSome?_step_none _ _ _ rfl]
  apply findSome?_step_some
  show (collisionHit _ _ _ 2 2).map _ = _
  rw [hhit_bh]
  rfl

theorem C1_witness :
    ((gridPlanet.cells 0 2).sprite = some moverA
    ∧ ¬(moverA.vx = 0 ∧ moverA.vy = 0)
    ∧ moverA.immutable = false
    ∧ inBounds gridPlanet 0 2 = true
    ∧ ((gridPlanet.cells 0 2).centerX = some 0 ∧ (gridPlanet.cells 0 2).centerY = some 2)
    ∧ ((gridPlanet.cells 2 2).centerX = some 2 ∧ (gridPlanet.cells 2 2).centerY = some 2)
    ∧ findCollision (tickG0 gvalZero gridPlanet 0 2 1 moverA)
        (tickS1 gvalZero gridPlanet 1 moverA).posX
        (tickS1 gvalZero gridPlanet 1 moverA).posY = some ((2, 2), planetT))
    ∧ ((tickMove gvalZero gridPlanet 0 2 1).2
        = some (if ¬(planetT.name = "Black Hole") ∧ planetT.health - 100 ≤ 0
                then TickEvent.destroyed 2 2
                else TickEvent.damaged 2 2
                  (if planetT.name = "Black Hole" then planetT.health
                   else planetT.health - 100))
      ∧ ((tickMove gvalZero gridPlanet 0 2 1).1.cells 0 2).occupied = false
      ∧ ((tickMove gvalZero gridPlanet 0 2 1).1.cells 0 2).sprite = none
      ∧ (planetT.name = "Black Hole" →
          (tickMove gvalZero gridPlanet 0 2 1).1.cells 2 2 = gridPlanet.cells 2 2)
      ∧ (¬(planetT.name = "Black Hole") → planetT.health - 100 ≤ 0 →
          ((tickMove gvalZero gridPlanet 0 2 1).1.cells 2 2).occupied = false
          ∧ ((tickMove gvalZero gridPlanet 0 2 1).1.cells 2 2).sprite = none)
      ∧ (¬(planetT.name = "Black Hole") → ¬(planetT.health - 100 ≤ 0) →
          ((tickMove gvalZero gridPlanet 0 2 1).1.cells 2 2).sprite
            = some { planetT with health := planetT.health - 100 }
          ∧ ((tickMove gvalZero gridPlanet 0 2 1).1.cells 2 2).occupied
            = (gridPlanet.cells 2 2).occupied)) :=
  ⟨⟨rfl, by decide, rfl, by decide, ⟨rfl, rfl⟩, ⟨rfl, rfl⟩, hcol_planet⟩,
   C1_collision_resolution gvalZero gridPlanet 0 2 1 moverA planetT (2, 2)
     rfl (by decide) rfl (by decide) ⟨rfl, rfl⟩ ⟨rfl, rfl⟩ hcol_planet⟩

/-- C1 counterexample: a tick in which the moving sprite collides with a
black hole (the scan reports the collision and logs one damaged outcome),
yet the black hole's record — health 0 — is unchanged and its cell remains
occupied: the tick neither applies 100 damage to the target nor removes it
although its (unchanged) health is ≤ 0, refuting the unconditional claim. -/
theorem C1_counterexample :
    (tickMove gvalZero gridBH 0 2 1).2 = some (TickEvent.damaged 2 2 0)
    ∧ (gridBH.cells 2 2).sprite = some bhT
    ∧ bhT.health = 0
    ∧ ((tickMove gvalZero gridBH 0 2 1).1.cells 2 2).sprite = some bhT
    ∧ ((tickMove gvalZero gridBH 0 2 1).1.cells 2 2).occupied = true
    ∧ ¬(((tickMove gvalZero gridBH 0 2 1).1.cells 2 2).sprite
          = some { bhT with health := bhT.health - 100 }
        ∨ ((tickMove gvalZero gridBH 0 2 1).1.cells 2 2).occupied = false) := by
  have heq := tickMove_eq_blackhole rfl (by decide) hcol_bh rfl
  refine ⟨?_, rfl, rfl, ?_, ?_, ?_⟩
  · rw [heq]
    rfl
  · rw [heq]
    rfl
  · rw [heq]
    rfl
  · rw [heq]
    decide

/-- A 5×5 scenario grid: the planet scenario plus an unrelated asteroid
placed at `(3, 3)`. -/
def gridC9 : Grid :=
  ⟨5, 5, fun x y => if x = 3 ∧ y = 3 then centerCell asteroidT 3 3 else baseCells planetT x y⟩

theorem hhit_c9 :
    collisionHit (tickG0 gvalZero gridC9 0 2 1 moverA) moverAup.posX moverAup.posY 2 2
      = some planetT := by
  unfold collisionHit
  dsimp only
  rw [show ((tickG0 gvalZero gridC9 0 2 1 moverA).cells 2 2).sprite = some planetT from rfl]
  dsimp only
  rw [if_pos]
  refine ⟨rfl, Or.inr ⟨rfl, rfl⟩, ?_⟩
  norm_num [moverAup, planetT, TILE_SIZE]

theorem hcol_c9 :
    findCollision (tickG0 gvalZero gridC9 0 2 1 moverA)
      (tickS1 gvalZero gridC9 1 moverA).posX
      (tickS1 gvalZero gridC9 1 moverA).posY
      = some ((2, 2), planetT) := by
  rw [tickS1_gvalZero, spriteUpdate_moverA]
  unfold findCollision
  rw [show scanPositions (tickG0 gvalZero gridC9 0 2 1 moverA) = scan5 from rfl]
  unfold scan5
  iterate 12 rw [findSome?_step_none _ _ _ rfl]
  apply findSome?_step_some
  show (collisionHit _ _ _ 2 2).map _ = _
  rw [hhit_c9]
  rfl

theorem C9_witness :
    ((gridC9.cells 0 2).sprite = some moverA
    ∧ ¬(moverA.vx = 0 ∧ moverA.vy = 0)
    ∧ findCollision (tickG0 gvalZero gridC9 0 2 1 moverA)
        (tickS1 gvalZero gridC9 1 moverA).posX
        (tickS1 gvalZero gridC9 1 moverA).posY = some ((2, 2), planetT)
    ∧ ((gridC9.cells 3 3).centerX = some 3 ∧ (gridC9.cells 3 3).centerY = some 3)
    ∧ ((3, 3) : Int × Int) ≠ ((2, 2) : Int × Int)
    ∧ ((3, 3) : Int × Int) ≠ ((0, 2) : Int × Int))
    ∧ (tickMove gvalZero gridC9 0 2 1).1.cells 3 3 = gridC9.cells 3 3 :=
  ⟨⟨rfl, by decide, hcol_c9, ⟨rfl, rfl⟩, by decide, by decide⟩,
   C9_collision_clears_only_owner gvalZero gridC9 0 2 1 moverA planetT (2, 2) 3 3 3 3
     rfl (by decide) hcol_c9 ⟨rfl, rfl⟩ (by decide) (by decide) (by decide) (by decide)⟩

/-- A 5×5 scenario grid: black hole at `(2, 2)`, `moverA` at `(0, 2)` and
`moverB` at `(4, 2)`, both launched toward the black hole. -/
def gridC7 : Grid :=
  ⟨5, 5, fun x y => if x = 4 ∧ y = 2 then centerCell moverB 4 2 else baseCells bhT x y⟩

/-- Two consecutive collision ticks: first `moverA`, then `moverB`. -/
def specsC7 : List TickSpec := [⟨0, 2, 1, gvalZero⟩, ⟨4, 2, 1, gvalZero⟩]

theorem hhit_c7a :
    collisionHit (tickG0 gvalZero gridC7 0 2 1 moverA) moverAup.posX moverAup.posY 2 2
      = some bhT := by
  unfold collisionHit
  dsimp only
  rw [show ((tickG0 gvalZero gridC7 0 2 1 moverA).cells 2 2).sprite = some bhT from rfl]
  dsimp only
  rw [if_pos]
  refine ⟨rfl, Or.inr ⟨rfl, rfl⟩, ?_⟩
  norm_num [moverAup, bhT, TILE_SIZE]

theorem hcol_c7a :
    findCollision (tickG0 gvalZero gridC7 0 2 1 moverA)
      (tickS1 gvalZero gridC7 1 moverA).posX
      (tickS1 gvalZero gridC7 1 moverA).posY
      = some ((2, 2), bhT) := by
  rw [tickS1_gvalZero, spriteUpdate_moverA]
  unfold findCollision
  rw [show scanPositions (tickG0 gvalZero gridC7 0 2 1 moverA) = scan5 from rfl]
  unfold scan5
  iterate 12 rw [findSome?_step_none _ _ _ rfl]
  apply findSome?_step_some
  show (collisionHit _ _ _ 2 2).map _ = _
  rw [hhit_c7a]
  rfl

/-- The grid after the first collision tick of the `gridC7` scenario. -/
def gridC7b : Grid :=
  clearOwnedCells (tickG0 gvalZero gridC7 0 2 1 moverA)
    (getCellsInRadius 0 2 (tickS1 gvalZero gridC7 1 moverA).radius) 0 2

theorem heq_c7a :
    tickMove gvalZero gridC7 0 2 1 = (gridC7b, some (TickEvent.damaged 2 2 0)) :=
  tickMove_eq_blackhole rfl (by decide) hcol_c7a rfl

theorem hhit_c7b :
    collisionHit (tickG0 gvalZero gridC7b 4 2 1 moverB) moverBup.posX moverBup.posY 2 2
      = some bhT := by
  unfold collisionHit
  dsimp only
  rw [show ((tickG0 gvalZero gridC7b 4 2 1 moverB).cells 2 2).sprite = some bhT from rfl]
  dsimp only
  rw [if_pos]
  refine ⟨rfl, Or.inr ⟨rfl, rfl⟩, ?_⟩
  norm_num [moverBup, bhT, TILE_SIZE]

theorem hcol_c7b :
    findCollision (tickG0 gvalZero gridC7b 4 2 1 moverB)
      (tickS1 gvalZero gridC7b 1 moverB).posX
      (tickS1 gvalZero gridC7b 1 moverB).posY
      = some ((2, 2), bhT) := by
  rw [tickS1_gvalZero, spriteUpdate_moverB]
  unfold findCollision
  rw [show scanPositions (tickG0 gvalZero gridC7b 4 2 1 moverB) = scan5 from rfl]
  unfold scan5
  iterate 12 rw [findSome?_step_none _ _ _ rfl]
  apply findSome?_step_some
  show (collisionHit _ _ _ 2 2).map _ = _
  rw [hhit_c7b]
  rfl

theorem ev_c7b : (tickMove gvalZero gridC7b 4 2 1).2 = some (TickEvent.damaged 2 2 0) := by
  rw [tickMove_eq_blackhole rfl (by decide) hcol_c7b rfl]
  rfl

theorem runC7_events :
    (runTicks gridC7 specsC7).2
      = [some (TickEvent.damaged 2 2 0), some (TickEvent.damaged 2 2 0)] := by
  unfold specsC7
  simp only [runTicks]
  rw [heq_c7a]
  dsimp only
  rw [ev_c7b]

theorem c7_events_target :
    ∀ ev ∈ (runTicks gridC7 specsC7).2, targetsCell (2, 2) ev = true := by
  intro ev hm
  rw [runC7_events] at hm
  rcases List.mem_cons.mp hm with h | h
  · subst h
    rfl
  · rcases List.mem_cons.mp h with h2 | h2
    · subst h2
      rfl
    · cases h2

theorem C7_witness :
    ((gridC7.cells 2 2).sprite = some bhT
    ∧ bhT.name = "Black Hole"
    ∧ (bhT.vx = 0 ∧ bhT.vy = 0)
    ∧ ((gridC7.cells 2 2).centerX = some 2 ∧ (gridC7.cells 2 2).centerY = some 2)
    ∧ (∀ ev ∈ (runTicks gridC7 specsC7).2, targetsCell (2, 2) ev = true))
    ∧ ((runTicks gridC7 specsC7).1.cells 2 2 = gridC7.cells 2 2
      ∧ ∀ ev ∈ (runTicks gridC7 specsC7).2, ev ≠ some (TickEvent.destroyed 2 2)) :=
  ⟨⟨rfl, rfl, ⟨rfl, rfl⟩, ⟨rfl, rfl⟩, c7_events_target⟩,
   C7_blackhole_immunity gridC7 specsC7 2 2 bhT rfl rfl ⟨rfl, rfl⟩ ⟨rfl, rfl⟩
     c7_events_target⟩
